import Mathlib

/-!
Verification development for the realism fine-tuning loop
(`tools/fine_tune_realism.py` of the WorldSimulation repository).

The Python code is shallowly embedded: pure numeric code is translated to
functions over `ℚ` (Python floats are modelled as exact rationals; the only
genuinely irrational operation the claims touch, `statistics.pstdev` /
`math.sqrt`, is modelled with `Real.sqrt` over `ℝ`).  Fallible code
(Python code that can raise) is translated to `Except String _`.
Stateful code (the run executor / cache) is translated to explicit state
passing.  Definitions keep the source's names wherever Lean allows it.
-/

namespace FineTune

/-- `TINY = 1e-12` from the source header. -/
def TINY : ℚ := 1 / 1000000000000

/-- `clamp01(x) = max(0.0, min(1.0, x))`. -/
def clamp01 (x : ℚ) : ℚ := max 0 (min 1 x)

/-- `relu(x) = max(0.0, x)`. -/
def relu (x : ℚ) : ℚ := max 0 x

/-- `closeness(x, target, tol) = clamp01(1 - |x - target| / max(TINY, tol))`. -/
def closeness (x target tol : ℚ) : ℚ := clamp01 (1 - |x - target| / max TINY tol)

/-- `safe_mean(xs) = sum(xs)/len(xs) if xs else 0.0`. -/
def safe_mean (xs : List ℚ) : ℚ :=
  if xs = [] then 0 else xs.sum / xs.length

/-- `statistics.pvariance(xs)`: population variance, the mean of squared
deviations from the mean (the source only calls it on nonempty lists). -/
def pvariance (xs : List ℚ) : ℚ :=
  let m := safe_mean xs
  (xs.map (fun x => (x - m) * (x - m))).sum / xs.length

/-- `statistics.pstdev(xs)`: population standard deviation, the (real)
square root of the population variance. -/
noncomputable def pstdev (xs : List ℚ) : ℝ :=
  Real.sqrt (pvariance xs)

/-- `safe_std(xs) = statistics.pstdev(xs) if len(xs) > 1 else 0.0`. -/
noncomputable def safe_std (xs : List ℚ) : ℝ :=
  if 1 < xs.length then pstdev xs else 0

/-- `statistics.median(xs)` for a nonempty list: the middle element of the
sorted list for odd length, the average of the two middle elements for even
length. -/
def median (xs : List ℚ) : ℚ :=
  let ys := xs.mergeSort (fun a b => decide (a ≤ b))
  let n := xs.length
  if n % 2 = 1 then ys.getD (n / 2) 0
  else (ys.getD (n / 2 - 1) 0 + ys.getD (n / 2) 0) / 2

/-- A detected violation, as carried in the violation dictionaries of
`evaluate_seed_run` (`id`, `severity`, `hardfail`; the heterogeneous
diagnostic `details` payload is not inspected by any claim and is omitted). -/
structure Violation where
  id : String
  severity : ℚ
  hardfail : Bool
deriving DecidableEq, Repr

/-- The `run_summary` dictionary assembled at the end of `evaluate_seed_run`. -/
structure Summary where
  seed : ℤ
  base_score_seed : ℚ
  total_score : ℚ
  penalty_points : ℚ
  metric_availability : Bool
  hardfails : List String
  hardfail_count : ℕ
  top_violations : List Violation
  scalar_metrics : List (String × ℚ)
  checkpoint_scores : List ℚ
deriving DecidableEq, Repr

/-- The `SeedEval` dataclass of the source. -/
structure SeedEval where
  seed : ℤ
  total_score_seed : ℚ
  base_score_seed : ℚ
  penalties : ℚ
  hardfails : List String
  violations : List Violation
  checkpoint_scores : List ℚ
  key_series : List (String × List ℚ)
  top_violations : List Violation
  run_summary : Summary
deriving DecidableEq, Repr

/-- The scoring thresholds document `defs["thresholds"]` (only the fields the
source reads; all are configuration data). -/
structure Thresholds where
  extinction_pop_floor : ℚ
  extinction_grace_years : ℚ
  coupling_lag_L : ℤ
  corr_window_W : ℤ
  rate_pop_base : ℚ
  use_sigmoid_adequacy : Bool
  sigmoid_k : ℚ
  settlement_target_share : ℚ
  access_target_sum : ℚ
  lat_entropy_target : ℚ
  shock_min_rate : ℚ
  capability_T1 : ℚ
  lowcap_growth_target : ℚ
  lowcap_growth_tol : ℚ
  response_ratio_target : ℚ
  response_ratio_tol : ℚ
  lowcap_disease_corr_target : ℚ
  lowcap_disease_corr_tol : ℚ
  health_threshold : ℚ
  disease_low_target : ℚ
  disease_low_tol : ℚ
  wG : ℚ
  wC : ℚ
  wK : ℚ
  wR : ℚ
  adequacy_var_window_N : ℤ
  VarMin : ℚ
  storage_S1 : ℚ
  loss_L1 : ℚ
  long_trade_share_max : ℚ
  logistics_R1 : ℚ
  transport_C1 : ℚ
  depletion_monotonic_window_M : ℤ
  Pmax_major : ℚ
  Pmax_medium : ℚ
  Pmax_minor : ℚ
  lambdaVar : ℚ
  targetStd : ℚ
  lambdaFail : ℚ
  min_delta : ℚ
  holdout_objective_min_delta : ℚ
  holdout_hardfail_max : ℤ

/-- The `ObjectiveAggregate` dictionary returned by `aggregate_objective`. -/
structure ObjectiveAggregate where
  score_median : ℚ
  stddev : ℝ
  hardfail_rate : ℚ
  variance_penalty : ℝ
  hardfail_penalty : ℚ
  objective : ℝ

/-- `aggregate_objective(seed_evals, defs)` (source lines 770-788):
median of total scores (`-1e9` sentinel on an empty list), population
stddev, hard-fail rate over `max(1, n)`, variance penalty
`lambdaVar * max(0, std - targetStd)`, hard-fail penalty
`lambdaFail * rate`, and objective `median - var_pen - hardfail_pen`. -/
noncomputable def aggregate_objective (seed_evals : List SeedEval) (t : Thresholds) :
    ObjectiveAggregate :=
  let scores := seed_evals.map (·.total_score_seed)
  let score_median : ℚ := if scores = [] then -1000000000 else median scores
  let std : ℝ := safe_std scores
  let hardfail_rate : ℚ :=
    (seed_evals.countP (fun s => !(s.hardfails.isEmpty)) : ℚ) / (max 1 seed_evals.length : ℚ)
  let var_pen : ℝ := (t.lambdaVar : ℝ) * max 0 (std - (t.targetStd : ℝ))
  let hardfail_pen : ℚ := t.lambdaFail * hardfail_rate
  { score_median := score_median
    stddev := std
    hardfail_rate := hardfail_rate
    variance_penalty := var_pen
    hardfail_penalty := hardfail_pen
    objective := (score_median : ℝ) - var_pen - (hardfail_pen : ℝ) }

/-- The dictionary returned by `paired_delta_stats` (source lines 804-831). -/
structure PairedStats where
  n : ℕ
  mean_diff : ℚ
  std_diff : ℝ
  stderr : ℝ
  z : ℚ
  lcb : ℝ
  ucb : ℝ

/-- The per-seed difference list built by the loop at the top of
`paired_delta_stats`: for each seed in `seeds` present in both maps, the
candidate total score minus the incumbent total score.  Seed→`SeedEval`
dictionaries are modelled as association lists. -/
def paired_diffs (candidate_by_seed incumbent_by_seed : List (ℤ × SeedEval))
    (seeds : List ℤ) : List ℚ :=
  seeds.filterMap (fun seed =>
    match candidate_by_seed.lookup seed, incumbent_by_seed.lookup seed with
    | some c, some i => some (c.total_score_seed - i.total_score_seed)
    | _, _ => none)

/-- `paired_delta_stats(candidate_by_seed, incumbent_by_seed, seeds, z_value)`
(source lines 804-831). -/
noncomputable def paired_delta_stats (candidate_by_seed incumbent_by_seed : List (ℤ × SeedEval))
    (seeds : List ℤ) (z_value : ℚ) : PairedStats :=
  let diffs := paired_diffs candidate_by_seed incumbent_by_seed seeds
  let n := diffs.length
  let mean_diff := safe_mean diffs
  let std_diff := safe_std diffs
  let stderr : ℝ := if 1 < n then std_diff / Real.sqrt (n : ℝ) else 0
  { n := n
    mean_diff := mean_diff
    std_diff := std_diff
    stderr := stderr
    z := z_value
    lcb := (mean_diff : ℝ) - (z_value : ℝ) * stderr
    ucb := (mean_diff : ℝ) + (z_value : ℝ) * stderr }

section PermLemmas

theorem safe_mean_congr {l₁ l₂ : List ℚ} (h : l₁.Perm l₂) : safe_mean l₁ = safe_mean l₂ := by
  unfold safe_mean
  rcases l₁ with _ | ⟨a, l⟩
  · rw [h.nil_eq]
  · rcases l₂ with _ | ⟨b, m⟩
    · exact absurd h.symm.nil_eq (by simp)
    · simp only [reduceCtorEq, if_false, h.sum_eq, h.length_eq]

theorem pvariance_congr {l₁ l₂ : List ℚ} (h : l₁.Perm l₂) : pvariance l₁ = pvariance l₂ := by
  show (l₁.map (fun x => (x - safe_mean l₁) * (x - safe_mean l₁))).sum / (l₁.length : ℚ)
      = (l₂.map (fun x => (x - safe_mean l₂) * (x - safe_mean l₂))).sum / (l₂.length : ℚ)
  rw [safe_mean_congr h, h.length_eq,
    (h.map (fun x => (x - safe_mean l₂) * (x - safe_mean l₂))).sum_eq]

theorem safe_std_congr {l₁ l₂ : List ℚ} (h : l₁.Perm l₂) : safe_std l₁ = safe_std l₂ := by
  unfold safe_std pstdev
  rw [h.length_eq, pvariance_congr h]

theorem sorted_mergeSort_le (l : List ℚ) :
    (l.mergeSort (fun a b => decide (a ≤ b))).Pairwise (· ≤ ·) := by
  have h := @List.sorted_mergeSort ℚ (fun a b => decide (a ≤ b))
    (fun a b c hab hbc => decide_eq_true
      (le_trans (of_decide_eq_true hab) (of_decide_eq_true hbc)))
    (fun a b => by simp [le_total]) l
  exact h.imp (fun hab => of_decide_eq_true hab)

theorem mergeSort_le_congr {l₁ l₂ : List ℚ} (h : l₁.Perm l₂) :
    l₁.mergeSort (fun a b => decide (a ≤ b)) = l₂.mergeSort (fun a b => decide (a ≤ b)) := by
  apply List.eq_of_perm_of_sorted (r := (· ≤ ·))
  · exact (List.mergeSort_perm l₁ _).trans (h.trans (List.mergeSort_perm l₂ _).symm)
  · exact sorted_mergeSort_le l₁
  · exact sorted_mergeSort_le l₂

theorem median_congr {l₁ l₂ : List ℚ} (h : l₁.Perm l₂) : median l₁ = median l₂ := by
  show (if l₁.length % 2 = 1
      then (l₁.mergeSort (fun a b => decide (a ≤ b))).getD (l₁.length / 2) 0
      else ((l₁.mergeSort (fun a b => decide (a ≤ b))).getD (l₁.length / 2 - 1) 0
            + (l₁.mergeSort (fun a b => decide (a ≤ b))).getD (l₁.length / 2) 0) / 2)
      = (if l₂.length % 2 = 1
      then (l₂.mergeSort (fun a b => decide (a ≤ b))).getD (l₂.length / 2) 0
      else ((l₂.mergeSort (fun a b => decide (a ≤ b))).getD (l₂.length / 2 - 1) 0
            + (l₂.mergeSort (fun a b => decide (a ≤ b))).getD (l₂.length / 2) 0) / 2)
  rw [mergeSort_le_congr h, h.length_eq]

end PermLemmas

/-- C2: `aggregate_objective` is a pure total function (its embedding is a
total Lean function, mirroring that the source cannot raise for any input
list: the empty list is guarded before `statistics.median` is called, and the
hard-fail-rate division is guarded by `max(1, len)`).  On an empty list the
median score is the large negative sentinel `-1e9`, and in every case the
objective equals the median total score minus the variance penalty minus the
hard-fail-rate penalty. -/
theorem C2_aggregate_objective_total_and_sentinel (evals : List SeedEval) (t : Thresholds) :
    (aggregate_objective [] t).score_median = -1000000000 ∧
    (aggregate_objective evals t).objective =
      ((aggregate_objective evals t).score_median : ℝ)
        - (aggregate_objective evals t).variance_penalty
        - ((aggregate_objective evals t).hardfail_penalty : ℝ) := by
  exact ⟨rfl, rfl⟩

/-- C9: `aggregate_objective` is invariant under permutation of the input
seed evaluations: every output field (median, stddev, hard-fail rate,
penalties, objective) is unchanged. -/
theorem C9_aggregate_objective_perm_invariant (l₁ l₂ : List SeedEval) (t : Thresholds)
    (h : l₁.Perm l₂) : aggregate_objective l₁ t = aggregate_objective l₂ t := by
  have hs : (l₁.map (·.total_score_seed)).Perm (l₂.map (·.total_score_seed)) :=
    h.map (·.total_score_seed)
  have hcnt := h.countP_eq (fun s => !(s.hardfails.isEmpty))
  have hmed : (if l₁.map (·.total_score_seed) = [] then (-1000000000 : ℚ)
        else median (l₁.map (·.total_score_seed)))
      = (if l₂.map (·.total_score_seed) = [] then (-1000000000 : ℚ)
        else median (l₂.map (·.total_score_seed))) := by
    rcases l₁ with _ | ⟨a, l⟩
    · rw [h.nil_eq]
    · rcases l₂ with _ | ⟨b, m⟩
      · exact absurd h.symm.nil_eq (by simp)
      · simp only [List.map_cons, reduceCtorEq, if_false]
        exact median_congr hs
  show ObjectiveAggregate.mk _ _ _ _ _ _ = ObjectiveAggregate.mk _ _ _ _ _ _
  rw [hmed, safe_std_congr hs, h.length_eq, hcnt]

/-! Concrete fixtures used by witness and counterexample theorems. -/

/-- A trivial run summary used by test fixtures. -/
def testSummary : Summary :=
  { seed := 0, base_score_seed := 0, total_score := 0, penalty_points := 0
    metric_availability := true, hardfails := [], hardfail_count := 0
    top_violations := [], scalar_metrics := [], checkpoint_scores := [] }

/-- A minimal `SeedEval` with a given seed and total score. -/
def testEval (seed : ℤ) (score : ℚ) : SeedEval :=
  { seed := seed, total_score_seed := score, base_score_seed := score / 100
    penalties := 0, hardfails := [], violations := [], checkpoint_scores := []
    key_series := [], top_violations := [], run_summary := testSummary }

/-- A concrete thresholds document (configuration data) for witnesses. -/
def testThresholds : Thresholds :=
  { extinction_pop_floor := 1000, extinction_grace_years := 200
    coupling_lag_L := 2, corr_window_W := 4, rate_pop_base := 1000000
    use_sigmoid_adequacy := false, sigmoid_k := 4
    settlement_target_share := 1/2, access_target_sum := 1/2, lat_entropy_target := 7/10
    shock_min_rate := 1/10, capability_T1 := 3/10
    lowcap_growth_target := 1/1000, lowcap_growth_tol := 1/100
    response_ratio_target := 1, response_ratio_tol := 2
    lowcap_disease_corr_target := 1/2, lowcap_disease_corr_tol := 1/2
    health_threshold := 6/10, disease_low_target := 1/100, disease_low_tol := 1/50
    wG := 1/4, wC := 1/4, wK := 1/4, wR := 1/4
    adequacy_var_window_N := 5, VarMin := 1/1000, storage_S1 := 1/2, loss_L1 := 1/10
    long_trade_share_max := 1/5, logistics_R1 := 1/2, transport_C1 := 1/2
    depletion_monotonic_window_M := 8
    Pmax_major := 40, Pmax_medium := 20, Pmax_minor := 10
    lambdaVar := 1/2, targetStd := 5, lambdaFail := 100
    min_delta := 1/4, holdout_objective_min_delta := -1/2, holdout_hardfail_max := 0 }

/-- Witness for C9 at a concrete permuted pair of evaluation lists. -/
theorem C9_aggregate_objective_perm_invariant_witness :
    [testEval 1 10, testEval 2 20].Perm [testEval 2 20, testEval 1 10] ∧
    aggregate_objective [testEval 1 10, testEval 2 20] testThresholds
      = aggregate_objective [testEval 2 20, testEval 1 10] testThresholds :=
  ⟨List.Perm.swap _ _ _,
    C9_aggregate_objective_perm_invariant _ _ testThresholds (List.Perm.swap _ _ _)⟩

theorem safe_std_nonneg (xs : List ℚ) : 0 ≤ safe_std xs := by
  unfold safe_std pstdev
  split
  · exact Real.sqrt_nonneg _
  · exact le_refl 0

theorem safe_std_of_short {xs : List ℚ} (h : ¬ 1 < xs.length) : safe_std xs = 0 := by
  unfold safe_std
  rw [if_neg h]

/-- Standard-error comparison behind the C7 width monotonicity: with the same
reported population stddev, a larger paired sample count gives a standard
error that is no larger. -/
theorem C7_stderr_le {d d' : List ℚ} (hσ : safe_std d = safe_std d')
    (hn : d.length ≤ d'.length) :
    (if 1 < d'.length then safe_std d' / Real.sqrt ((d'.length : ℕ) : ℝ) else 0)
      ≤ (if 1 < d.length then safe_std d / Real.sqrt ((d.length : ℕ) : ℝ) else 0) := by
  by_cases h1 : 1 < d.length
  · have h2 : 1 < d'.length := lt_of_lt_of_le h1 hn
    rw [if_pos h1, if_pos h2, ← hσ]
    apply div_le_div_of_nonneg_left (safe_std_nonneg d)
    · exact Real.sqrt_pos.mpr (by exact_mod_cast Nat.lt_of_lt_of_le Nat.zero_lt_one h1.le)
    · exact Real.sqrt_le_sqrt (by exact_mod_cast hn)
  · by_cases h2 : 1 < d'.length
    · rw [if_neg h1, if_pos h2, ← hσ, safe_std_of_short h1, zero_div]
    · rw [if_neg h1, if_neg h2]

/-- C7: `paired_delta_stats` computes, over the seeds present in both maps,
the mean and population standard deviation of the per-seed score differences,
the standard error `σ/√n` (0 when `n ≤ 1`), and the confidence interval
`[mean − z·stderr, mean + z·stderr]`; and for a fixed reported difference
stddev and nonnegative `z`, the interval width is monotonically nonincreasing
in the paired sample count. -/
theorem C7_paired_delta_stats_formulas_and_width
    (cand inc cand' inc' : List (ℤ × SeedEval)) (seeds seeds' : List ℤ) (z : ℚ)
    (hz : 0 ≤ z)
    (hσ : (paired_delta_stats cand inc seeds z).std_diff
        = (paired_delta_stats cand' inc' seeds' z).std_diff)
    (hn : (paired_delta_stats cand inc seeds z).n ≤ (paired_delta_stats cand' inc' seeds' z).n) :
    ((paired_delta_stats cand inc seeds z).n = (paired_diffs cand inc seeds).length
      ∧ (paired_delta_stats cand inc seeds z).mean_diff = safe_mean (paired_diffs cand inc seeds)
      ∧ (paired_delta_stats cand inc seeds z).std_diff = safe_std (paired_diffs cand inc seeds)
      ∧ (paired_delta_stats cand inc seeds z).stderr =
          (if 1 < (paired_diffs cand inc seeds).length
           then safe_std (paired_diffs cand inc seeds)
                  / Real.sqrt (((paired_diffs cand inc seeds).length : ℕ) : ℝ)
           else 0)
      ∧ (paired_delta_stats cand inc seeds z).lcb
          = ((paired_delta_stats cand inc seeds z).mean_diff : ℝ)
            - (z : ℝ) * (paired_delta_stats cand inc seeds z).stderr
      ∧ (paired_delta_stats cand inc seeds z).ucb
          = ((paired_delta_stats cand inc seeds z).mean_diff : ℝ)
            + (z : ℝ) * (paired_delta_stats cand inc seeds z).stderr)
    ∧ (paired_delta_stats cand' inc' seeds' z).ucb - (paired_delta_stats cand' inc' seeds' z).lcb
        ≤ (paired_delta_stats cand inc seeds z).ucb - (paired_delta_stats cand inc seeds z).lcb := by
  refine ⟨⟨rfl, rfl, rfl, rfl, rfl, rfl⟩, ?_⟩
  have hwidth : ∀ (c i : List (ℤ × SeedEval)) (s : List ℤ),
      (paired_delta_stats c i s z).ucb - (paired_delta_stats c i s z).lcb
        = 2 * (z : ℝ) * (paired_delta_stats c i s z).stderr := by
    intro c i s
    have hu : (paired_delta_stats c i s z).ucb
        = (safe_mean (paired_diffs c i s) : ℝ)
          + (z : ℝ) * (paired_delta_stats c i s z).stderr := rfl
    have hl : (paired_delta_stats c i s z).lcb
        = (safe_mean (paired_diffs c i s) : ℝ)
          - (z : ℝ) * (paired_delta_stats c i s z).stderr := rfl
    rw [hu, hl]
    ring
  rw [hwidth, hwidth]
  have hse : (paired_delta_stats cand' inc' seeds' z).stderr
      ≤ (paired_delta_stats cand inc seeds z).stderr := C7_stderr_le hσ hn
  have h2z : (0 : ℝ) ≤ 2 * (z : ℝ) := by positivity
  exact mul_le_mul_of_nonneg_left hse h2z

/-- Concrete candidate map for the C7 witness (two paired seeds). -/
def c7cand : List (ℤ × SeedEval) := [(1, testEval 1 0), (2, testEval 2 2)]

/-- Concrete incumbent map for the C7 witness (two paired seeds). -/
def c7inc : List (ℤ × SeedEval) := [(1, testEval 1 0), (2, testEval 2 0)]

/-- Concrete candidate map for the C7 witness (four paired seeds, same stddev). -/
def c7candBig : List (ℤ × SeedEval) :=
  [(1, testEval 1 0), (2, testEval 2 2), (3, testEval 3 0), (4, testEval 4 2)]

/-- Concrete incumbent map for the C7 witness (four paired seeds). -/
def c7incBig : List (ℤ × SeedEval) :=
  [(1, testEval 1 0), (2, testEval 2 0), (3, testEval 3 0), (4, testEval 4 0)]

/-- Witness for C7 at concrete paired evaluation maps with two vs four paired
seeds and the same difference stddev. -/
theorem C7_paired_delta_stats_witness :
    (0:ℚ) ≤ 1
    ∧ (paired_delta_stats c7cand c7inc [1, 2] 1).std_diff
        = (paired_delta_stats c7candBig c7incBig [1, 2, 3, 4] 1).std_diff
    ∧ (paired_delta_stats c7cand c7inc [1, 2] 1).n
        ≤ (paired_delta_stats c7candBig c7incBig [1, 2, 3, 4] 1).n
    ∧ ((paired_delta_stats c7candBig c7incBig [1, 2, 3, 4] 1).ucb
          - (paired_delta_stats c7candBig c7incBig [1, 2, 3, 4] 1).lcb
        ≤ (paired_delta_stats c7cand c7inc [1, 2] 1).ucb
          - (paired_delta_stats c7cand c7inc [1, 2] 1).lcb) := by
  have hd1 : paired_diffs c7cand c7inc [1, 2] = [0, 2] := by
    simp [paired_diffs, c7cand, c7inc, testEval, List.lookup_cons, List.filterMap_cons]
  have hd2 : paired_diffs c7candBig c7incBig [1, 2, 3, 4] = [0, 2, 0, 2] := by
    simp [paired_diffs, c7candBig, c7incBig, testEval, List.lookup_cons, List.filterMap_cons]
  have hσ : (paired_delta_stats c7cand c7inc [1, 2] 1).std_diff
      = (paired_delta_stats c7candBig c7incBig [1, 2, 3, 4] 1).std_diff := by
    show safe_std (paired_diffs c7cand c7inc [1, 2])
        = safe_std (paired_diffs c7candBig c7incBig [1, 2, 3, 4])
    rw [hd1, hd2]
    unfold safe_std pstdev
    rw [if_pos (by norm_num), if_pos (by norm_num)]
    congr 1
    rw [show pvariance [0, 2] = 1 from by
        rw [pvariance, safe_mean, if_neg (by simp)]; norm_num,
      show pvariance [0, 2, 0, 2] = 1 from by
        rw [pvariance, safe_mean, if_neg (by simp)]; norm_num]
  have hn : (paired_delta_stats c7cand c7inc [1, 2] 1).n
      ≤ (paired_delta_stats c7candBig c7incBig [1, 2, 3, 4] 1).n := by
    show (paired_diffs c7cand c7inc [1, 2]).length
        ≤ (paired_diffs c7candBig c7incBig [1, 2, 3, 4]).length
    rw [hd1, hd2]
    norm_num
  exact ⟨by norm_num, hσ, hn,
    (C7_paired_delta_stats_formulas_and_width c7cand c7inc c7candBig c7incBig
      [1, 2] [1, 2, 3, 4] 1 (by norm_num) hσ hn).2⟩

/-! ### Determinism/parity comparison (`metric_max_error`, `compare_metric_series`) -/

/-- Tolerance mode parsed by `parse_eps_text`: "relative" or "absolute". -/
inductive EpsMode where
  | relative
  | absolute
deriving DecidableEq, Repr

/-- One parsed per-metric tolerance spec.  `parse_eps_text` turns a textual
spec such as a percentage into a `(mode, value)` pair; that string parsing is
pure text processing not touched by any claim, so the comparison is embedded
over the parsed pairs. -/
structure EpsSpec where
  metric : String
  mode : EpsMode
  eps : ℚ
deriving DecidableEq, Repr

/-- Python `max` over a nonempty list (`max([])` raises; both call sites in
`metric_max_error`/`compare_metric_series` only apply it to nonempty lists,
the guarded default is never reached there). -/
def pyMax : List ℚ → ℚ
  | [] => 0
  | x :: xs => xs.foldl max x

/-- Python `max` over a nonempty list of extended values (same remark). -/
def pyMaxTop : List (WithTop ℚ) → WithTop ℚ
  | [] => ⊤
  | x :: xs => xs.foldl max x

/-- `metric_max_error(a, b, mode)` (source lines 232-244).  Python's
`float("inf")` result for an empty overlap is modelled as `⊤` in `WithTop ℚ`:
it compares as strictly larger than every finite tolerance, exactly like the
IEEE infinity the source produces. -/
def metric_max_error (a b : List ℚ) (mode : EpsMode) : WithTop ℚ :=
  let n := min a.length b.length
  if n = 0 then ⊤
  else
    ((pyMax ((List.range n).map (fun i =>
      let av := a.getD i 0
      let bv := b.getD i 0
      match mode with
      | .relative => |av - bv| / max |av| TINY
      | .absolute => |av - bv|)) : ℚ) : WithTop ℚ)

/-- `a.key_series.get(metric, [])`. -/
def series_for (e : SeedEval) (k : String) : List ℚ :=
  (e.key_series.lookup k).getD []

/-- The three sub-keys of the aggregate event-rate metric. -/
def event_rate_keys : List String :=
  ["major_war_rate", "famine_wave_rate", "epidemic_wave_rate"]

/-- The per-metric `max_error` computed inside the `compare_metric_series`
loop (source lines 665-678), including the three-way aggregate for
`event_rates_per_century_per_billion`. -/
def metric_err (a b : SeedEval) (spec : EpsSpec) : WithTop ℚ :=
  if spec.metric = "event_rates_per_century_per_billion" then
    pyMaxTop (event_rate_keys.map (fun k =>
      metric_max_error (series_for a k) (series_for b k) spec.mode))
  else
    metric_max_error (series_for a spec.metric) (series_for b spec.metric) spec.mode

/-- `passed = err <= eps + 1e-12` for one metric (source line 679). -/
def metric_passes (a b : SeedEval) (spec : EpsSpec) : Bool :=
  decide (metric_err a b spec ≤ ((spec.eps + TINY : ℚ) : WithTop ℚ))

/-- `compare_metric_series(a, b, eps_map)` overall verdict (source lines
660-683): `ok` starts true and is cleared whenever any configured metric
fails its tolerance check; the per-metric detail rows are the
`(metric_err, metric_passes)` values. -/
def compare_metric_series (a b : SeedEval) (eps_map : List EpsSpec) : Bool :=
  eps_map.all (metric_passes a b)

theorem metric_max_error_left_nil (b : List ℚ) (mode : EpsMode) :
    metric_max_error [] b mode = ⊤ := by
  unfold metric_max_error
  simp

theorem metric_max_error_right_nil (a : List ℚ) (mode : EpsMode) :
    metric_max_error a [] mode = ⊤ := by
  unfold metric_max_error
  simp

theorem foldl_max_from_top (l : List (WithTop ℚ)) : l.foldl max ⊤ = ⊤ := by
  induction l with
  | nil => rfl
  | cons y ys ih =>
    show ys.foldl max (max ⊤ y) = ⊤
    rw [top_sup_eq]
    exact ih

theorem foldl_max_top_of_mem {l : List (WithTop ℚ)} (a : WithTop ℚ) (h : ⊤ ∈ l) :
    l.foldl max a = ⊤ := by
  induction l generalizing a with
  | nil => cases h
  | cons y ys ih =>
    show ys.foldl max (max a y) = ⊤
    rcases List.mem_cons.mp h with h | h
    · subst h
      rw [sup_top_eq]
      exact foldl_max_from_top ys
    · exact ih (max a y) h

theorem pyMaxTop_eq_top_of_mem {l : List (WithTop ℚ)} (h : ⊤ ∈ l) : pyMaxTop l = ⊤ := by
  rcases l with _ | ⟨x, xs⟩
  · cases h
  · show xs.foldl max x = ⊤
    rcases List.mem_cons.mp h with h | h
    · subst h
      exact foldl_max_from_top xs
    · exact foldl_max_top_of_mem x h

/-- C10: in the determinism/parity comparison, a configured metric whose key
series is empty in either compared `SeedEval` (for the aggregate event-rate
metric: any of its three sub-series) yields an infinite max error, hence
fails its tolerance check, so the whole gate verdict is `false`: the
canary/parity gate never passes vacuously on missing series. -/
theorem C10_empty_series_fails_gate (a b : SeedEval) (eps_map : List EpsSpec) (spec : EpsSpec)
    (hmem : spec ∈ eps_map)
    (hempty : if spec.metric = "event_rates_per_century_per_billion"
      then ∃ k ∈ event_rate_keys, series_for a k = [] ∨ series_for b k = []
      else series_for a spec.metric = [] ∨ series_for b spec.metric = []) :
    metric_err a b spec = ⊤ ∧ compare_metric_series a b eps_map = false := by
  have herr : metric_err a b spec = ⊤ := by
    unfold metric_err
    by_cases hm : spec.metric = "event_rates_per_century_per_billion"
    · rw [if_pos hm]
      rw [if_pos hm] at hempty
      obtain ⟨k, hk, hnil⟩ := hempty
      apply pyMaxTop_eq_top_of_mem
      refine List.mem_map.mpr ⟨k, hk, ?_⟩
      rcases hnil with h | h
      · rw [h]
        exact metric_max_error_left_nil _ _
      · rw [h]
        exact metric_max_error_right_nil _ _
    · rw [if_neg hm]
      rw [if_neg hm] at hempty
      rcases hempty with h | h
      · rw [h]
        exact metric_max_error_left_nil _ _
      · rw [h]
        exact metric_max_error_right_nil _ _
  refine ⟨herr, ?_⟩
  rcases Bool.eq_false_or_eq_true (compare_metric_series a b eps_map) with h | h
  swap
  · exact h
  · exfalso
    have h' : eps_map.all (metric_passes a b) = true := h
    have hp := List.all_eq_true.mp h' spec hmem
    have hle := of_decide_eq_true hp
    rw [herr] at hle
    exact WithTop.not_top_le_coe _ hle

/-- The concrete tolerance spec used by the C10 witness. -/
def c10spec : EpsSpec := { metric := "world_pop_total", mode := .absolute, eps := 1/1000 }

/-- Witness for C10: two evaluations whose key-series map is empty fail the
gate on a configured absolute-tolerance metric. -/
theorem C10_empty_series_fails_gate_witness :
    c10spec ∈ [c10spec]
    ∧ (if c10spec.metric = "event_rates_per_century_per_billion"
        then ∃ k ∈ event_rate_keys,
          series_for (testEval 1 0) k = [] ∨ series_for (testEval 2 0) k = []
        else series_for (testEval 1 0) c10spec.metric = []
          ∨ series_for (testEval 2 0) c10spec.metric = [])
    ∧ metric_err (testEval 1 0) (testEval 2 0) c10spec = ⊤
    ∧ compare_metric_series (testEval 1 0) (testEval 2 0) [c10spec] = false := by
  have hmem : c10spec ∈ [c10spec] := List.mem_cons_self _ _
  have hempty : if c10spec.metric = "event_rates_per_century_per_billion"
      then ∃ k ∈ event_rate_keys,
        series_for (testEval 1 0) k = [] ∨ series_for (testEval 2 0) k = []
      else series_for (testEval 1 0) c10spec.metric = []
        ∨ series_for (testEval 2 0) c10spec.metric = [] := by
    simp [c10spec, series_for, testEval]
  obtain ⟨h1, h2⟩ :=
    C10_empty_series_fails_gate (testEval 1 0) (testEval 2 0) [c10spec] c10spec hmem hempty
  exact ⟨hmem, hempty, h1, h2⟩

/-! ### Adaptive racing (main-loop stage racing, source lines 1779-1831)

The per-stage aggregates and paired statistics are computed from simulator
runs; they enter the embedding as an oracle `outcome` mapping each stage
seed count to the `stage_delta` and `stage_pair` values the code computes
for that stage. -/

/-- The racing-relevant configuration the main loop reads from the schema
and the definitions document. -/
structure RacingCfg where
  racing_enabled : Bool
  paired_enabled : Bool
  min_delta : ℚ
  early_reject_margin : ℚ
  paired_min_inner_lcb_delta : ℚ
  total_seeds : ℕ

/-- The data the loop derives for one stage: `stage_delta` (candidate minus
incumbent objective over the stage seed subset; an `ℝ` since objectives
involve the population stddev) and `stage_pair` (the `paired_delta_stats`
result, or the `n = 0, lcb = 0` placeholder dict when paired acceptance is
disabled). -/
structure StageOutcome where
  objective_delta : ℝ
  paired : PairedStats

/-- `reject_obj = stage_delta < (min_delta - early_reject_margin)`
(source line 1822). -/
def reject_obj_at (cfg : RacingCfg) (o : StageOutcome) : Prop :=
  o.objective_delta < (cfg.min_delta : ℝ) - (cfg.early_reject_margin : ℝ)

/-- `reject_pair = paired_enabled and n >= 2 and
lcb < (paired_min_inner_lcb_delta - early_reject_margin)` (source line 1823). -/
def reject_pair_at (cfg : RacingCfg) (o : StageOutcome) : Prop :=
  cfg.paired_enabled = true ∧ 2 ≤ o.paired.n ∧
    o.paired.lcb < (cfg.paired_min_inner_lcb_delta : ℝ) - (cfg.early_reject_margin : ℝ)

/-- The guard plus disjunction that sets `early_reject` and breaks out of the
stage loop (source lines 1821-1831). -/
def early_reject_fires (cfg : RacingCfg) (stage_n : ℕ) (o : StageOutcome) : Prop :=
  cfg.racing_enabled = true ∧ stage_n < cfg.total_seeds ∧
    (reject_obj_at cfg o ∨ reject_pair_at cfg o)

/-- The early-rejection condition as the claim words it: BOTH branches are
compared against `min_delta − early_reject_margin` (the code instead compares
the paired branch against `paired_min_inner_lcb_delta − early_reject_margin`). -/
def claim_early_reject_fires (cfg : RacingCfg) (stage_n : ℕ) (o : StageOutcome) : Prop :=
  cfg.racing_enabled = true ∧ stage_n < cfg.total_seeds ∧
    (o.objective_delta < (cfg.min_delta : ℝ) - (cfg.early_reject_margin : ℝ)
      ∨ (cfg.paired_enabled = true ∧ 2 ≤ o.paired.n ∧
          o.paired.lcb < (cfg.min_delta : ℝ) - (cfg.early_reject_margin : ℝ)))

open Classical in
/-- The stage at which the racing loop early-rejects: the first stage in
`stage_counts` whose reject condition fires (the source `break`s there);
`none` when no stage fires and the loop runs to completion. -/
noncomputable def racing_reject_stage (cfg : RacingCfg) (outcome : ℕ → StageOutcome) :
    List ℕ → Option ℕ
  | [] => none
  | s :: rest =>
    if early_reject_fires cfg s (outcome s) then some s
    else racing_reject_stage cfg outcome rest

/-- C5 amended: during adaptive racing the candidate is early-rejected at
stage `s` exactly when `s` is the first stage (necessarily before the final
stage, by the `stage_n < len(tuning_seeds)` guard inside the condition) at
which the raw objective delta falls below `min_delta − early_reject_margin`,
or paired acceptance is enabled, at least two paired seeds exist, and the
paired lower-confidence-bound delta falls below
`paired_min_inner_lcb_delta − early_reject_margin`. -/
theorem C5_early_reject_characterization (cfg : RacingCfg) (outcome : ℕ → StageOutcome)
    (stages : List ℕ) (s : ℕ) :
    racing_reject_stage cfg outcome stages = some s ↔
      ∃ pre post, stages = pre ++ s :: post
        ∧ early_reject_fires cfg s (outcome s)
        ∧ ∀ x ∈ pre, ¬ early_reject_fires cfg x (outcome x) := by
  classical
  induction stages with
  | nil =>
    simp only [racing_reject_stage, reduceCtorEq, false_iff]
    rintro ⟨pre, post, habs, -, -⟩
    exact absurd habs.symm (List.append_ne_nil_of_right_ne_nil pre (List.cons_ne_nil s post))
  | cons t rest ih =>
    by_cases hf : early_reject_fires cfg t (outcome t)
    · rw [racing_reject_stage, if_pos hf]
      constructor
      · rintro h
        injection h with h
        subst h
        exact ⟨[], rest, rfl, hf, by simp⟩
      · rintro ⟨pre, post, heq, hfs, hpre⟩
        rcases pre with _ | ⟨p, pre⟩
        · injection heq with h1 h2
          rw [h1]
        · injection heq with h1 h2
          subst h1
          exact absurd hf (hpre t (List.mem_cons_self t pre))
    · rw [racing_reject_stage, if_neg hf, ih]
      constructor
      · rintro ⟨pre, post, heq, hfs, hpre⟩
        refine ⟨t :: pre, post, by rw [heq]; rfl, hfs, ?_⟩
        intro x hx
        rcases List.mem_cons.mp hx with hx | hx
        · subst hx
          exact hf
        · exact hpre x hx
      · rintro ⟨pre, post, heq, hfs, hpre⟩
        rcases pre with _ | ⟨p, pre⟩
        · injection heq with h1 h2
          subst h1
          exact absurd hfs hf
        · injection heq with h1 h2
          subst h1
          exact ⟨pre, post, h2, hfs, fun x hx => hpre x (List.mem_cons_of_mem t hx)⟩

/-- Racing configuration for the C5 counterexample: `min_delta = 5` differs
from `paired_min_inner_lcb_delta = 0` (both are separate configuration
values in the source: `defs["thresholds"]["min_delta"]` vs
`paired_cfg["min_inner_lcb_delta"]`). -/
def c5cfg : RacingCfg :=
  { racing_enabled := true, paired_enabled := true, min_delta := 5
    early_reject_margin := 0, paired_min_inner_lcb_delta := 0, total_seeds := 10 }

/-- Candidate map realizing the counterexample stage: both per-seed diffs
equal 2, so the paired stats have `n = 2`, `stderr = 0`, `lcb = 2`. -/
def c5cand : List (ℤ × SeedEval) := [(1, testEval 1 2), (2, testEval 2 2)]

/-- Incumbent map for the C5 counterexample stage. -/
def c5inc : List (ℤ × SeedEval) := [(1, testEval 1 0), (2, testEval 2 0)]

/-- The stage outcome for the C5 counterexample: raw delta 6 (clears
`min_delta − margin = 5`), paired stats from real maps with `lcb = 2`. -/
noncomputable def c5out : StageOutcome :=
  { objective_delta := 6, paired := paired_delta_stats c5cand c5inc [1, 2] 1 }

theorem c5diffs_eq : paired_diffs c5cand c5inc [1, 2] = [2, 2] := by
  simp [paired_diffs, c5cand, c5inc, testEval, List.lookup_cons, List.filterMap_cons]

theorem c5out_paired_lcb : c5out.paired.lcb = 2 := by
  have hmean : safe_mean (paired_diffs c5cand c5inc [1, 2]) = 2 := by
    rw [c5diffs_eq, safe_mean, if_neg (by simp)]
    norm_num
  have hvar : pvariance (paired_diffs c5cand c5inc [1, 2]) = 0 := by
    rw [c5diffs_eq, pvariance, safe_mean, if_neg (by simp)]
    norm_num
  have hstd : safe_std (paired_diffs c5cand c5inc [1, 2]) = 0 := by
    rw [safe_std, if_pos (by rw [c5diffs_eq]; norm_num), pstdev, hvar]
    simp
  have hstderr : (paired_delta_stats c5cand c5inc [1, 2] 1).stderr = 0 := by
    show (if 1 < (paired_diffs c5cand c5inc [1, 2]).length
        then safe_std (paired_diffs c5cand c5inc [1, 2])
          / Real.sqrt (((paired_diffs c5cand c5inc [1, 2]).length : ℕ) : ℝ)
        else 0) = 0
    rw [if_pos (by rw [c5diffs_eq]; norm_num), hstd, zero_div]
  show ((safe_mean (paired_diffs c5cand c5inc [1, 2]) : ℚ) : ℝ)
      - ((1 : ℚ) : ℝ) * (paired_delta_stats c5cand c5inc [1, 2] 1).stderr = 2
  rw [hmean, hstderr]
  norm_num

theorem c5out_paired_n : c5out.paired.n = 2 := by
  show (paired_diffs c5cand c5inc [1, 2]).length = 2
  rw [c5diffs_eq]
  rfl

/-- C5 counterexample: at a stage before the final stage (stage 2 of 10),
with `min_delta = 5`, `early_reject_margin = 0`,
`paired_min_inner_lcb_delta = 0`, raw delta 6, and paired `lcb = 2` from two
paired seeds, the claim's condition (paired lcb below
`min_delta − margin = 5`) fires, but the code does not early-reject: its
paired branch compares the lcb against
`paired_min_inner_lcb_delta − margin = 0`. -/
theorem C5_early_reject_counterexample :
    claim_early_reject_fires c5cfg 2 c5out
    ∧ racing_reject_stage c5cfg (fun _ => c5out) [2] = none := by
  classical
  constructor
  · refine ⟨rfl, by norm_num [c5cfg], Or.inr ⟨rfl, ?_, ?_⟩⟩
    · rw [c5out_paired_n]
    · rw [c5out_paired_lcb]
      norm_num [c5cfg]
  · rw [racing_reject_stage, if_neg, racing_reject_stage]
    rintro ⟨-, -, hor⟩
    rcases hor with h | h
    · rw [reject_obj_at, show c5out.objective_delta = (6 : ℝ) from rfl] at h
      norm_num [c5cfg] at h
    · obtain ⟨-, -, h⟩ := h
      rw [c5out_paired_lcb] at h
      norm_num [c5cfg] at h

/-! ### Per-iteration gate logic (source lines 1850-2084)

The values a single tuning iteration derives from simulator runs (hard-fail
id sets, objective deltas, paired statistics, canary/parity comparison
verdicts, horizon aggregates) enter the embedding as fields of `IterInputs`;
the boolean gate wiring of the source is embedded as predicates over it. -/

/-- Data one iteration computes from runs plus the configuration values the
gate logic reads.  `canary_cmp_ok`/`parity_cmp_ok` are the
`compare_metric_series` verdicts the code would obtain when those checks
execute; `inner_pair`/`long_pair`/`holdout_pair` are the placeholder stats
(`n = 0`, `lcb = 0`) when paired acceptance is disabled, mirroring the
source dicts. -/
structure IterInputs where
  tune_hardfails : List String
  inner_delta : ℝ
  inner_pair : PairedStats
  early_reject : Bool
  paired_enabled : Bool
  min_delta : ℚ
  paired_min_inner_lcb_delta : ℚ
  paired_min_long_lcb_delta : ℚ
  paired_min_holdout_lcb_delta : ℚ
  holdout_delta_req : ℚ
  holdout_hardfail_max : ℤ
  medium_required : Bool
  canary_cmp_ok : Bool
  parity_cmp_ok : Bool
  medium_hardfails : List String
  medium_holdout_hardfails : List String
  medium_holdout_obj : ℝ
  best_medium_holdout_obj : ℝ
  long_hardfails : List String
  long_obj : ℝ
  best_obj : ℝ
  long_pair : PairedStats
  holdout_hardfails : List String
  holdout_obj : ℝ
  best_holdout_obj : ℝ
  holdout_pair : PairedStats

/-- `no_hardfail_tuning = len(tune_hardfails) == 0` (line 1854). -/
def no_hardfail_tuning (d : IterInputs) : Prop := d.tune_hardfails = []

/-- `improve_ok = inner_delta >= min_delta and ((not paired_enabled) or
inner_pair["lcb"] >= paired_min_inner_lcb_delta)` (line 1855). -/
def improve_ok (d : IterInputs) : Prop :=
  (d.min_delta : ℝ) ≤ d.inner_delta
    ∧ (d.paired_enabled = true → (d.paired_min_inner_lcb_delta : ℝ) ≤ d.inner_pair.lcb)

/-- `checks_executed = no_hardfail_tuning and improve_ok and (not early_reject)`
(line 1856). -/
def checks_executed (d : IterInputs) : Prop :=
  no_hardfail_tuning d ∧ improve_ok d ∧ d.early_reject = false

/-- `canary_pass` is `False` unless the canary check executed, in which case
it is the comparison verdict (lines 1850, 1857-1889). -/
def canary_pass (d : IterInputs) : Prop :=
  checks_executed d ∧ d.canary_cmp_ok = true

/-- `parity_pass`, same shape (lines 1851, 1890-1920). -/
def parity_pass (d : IterInputs) : Prop :=
  checks_executed d ∧ d.parity_cmp_ok = true

/-- The condition guarding the promotion branch (line 1950). -/
def promotion_checks_reached (d : IterInputs) : Prop :=
  no_hardfail_tuning d ∧ improve_ok d ∧ canary_pass d ∧ parity_pass d
    ∧ d.early_reject = false

/-- `medium_ran`: the medium-horizon check executes exactly when the
promotion branch is reached and the medium cadence requires it
(lines 1951-1952). -/
def medium_ran (d : IterInputs) : Prop :=
  promotion_checks_reached d ∧ d.medium_required = true

/-- `medium_pass` starts `True` and is reassigned only when the medium check
ran (lines 1932, 1991-1995): zero medium hard fails, capped medium-holdout
hard fails, and medium-holdout non-regression within tolerance. -/
def medium_pass (d : IterInputs) : Prop :=
  medium_ran d →
    d.medium_hardfails = []
      ∧ (d.medium_holdout_hardfails.length : ℤ) ≤ d.holdout_hardfail_max
      ∧ d.best_medium_holdout_obj + (d.holdout_delta_req : ℝ) ≤ d.medium_holdout_obj

/-- `long_ran`: the long-horizon promotion check executes exactly when the
promotion branch is reached and the medium gate passed (lines 2000-2001). -/
def long_ran (d : IterInputs) : Prop :=
  promotion_checks_reached d ∧ medium_pass d

/-- `long_improve_ok` (line 2028). -/
def long_improve_ok (d : IterInputs) : Prop :=
  (d.min_delta : ℝ) ≤ d.long_obj - d.best_obj
    ∧ (d.paired_enabled = true → (d.paired_min_long_lcb_delta : ℝ) ≤ d.long_pair.lcb)

/-- The long holdout validation executes exactly when the long promotion run
had zero hard fails and cleared its gates (line 2029). -/
def holdout_ran (d : IterInputs) : Prop :=
  long_ran d ∧ d.long_hardfails = [] ∧ long_improve_ok d

/-- `holdout_ok` starts `False` and is assigned only when the holdout ran
(lines 1940, 2054-2058): capped holdout hard fails, holdout non-regression
within tolerance, and the paired holdout lower bound clearing its minimum. -/
def holdout_ok (d : IterInputs) : Prop :=
  holdout_ran d
    ∧ (d.holdout_hardfails.length : ℤ) ≤ d.holdout_hardfail_max
    ∧ d.best_holdout_obj + (d.holdout_delta_req : ℝ) ≤ d.holdout_obj
    ∧ (d.paired_enabled = true → (d.paired_min_holdout_lcb_delta : ℝ) ≤ d.holdout_pair.lcb)

/-- `accepted` (lines 2076-2084). -/
def accepted (d : IterInputs) : Prop :=
  no_hardfail_tuning d ∧ improve_ok d ∧ canary_pass d ∧ parity_pass d
    ∧ medium_pass d ∧ long_ran d ∧ holdout_ok d

/-- C4: a candidate is accepted only if the long-horizon promotion stage and
the long-horizon holdout validation actually ran and passed in that
iteration (`long_ran`, `holdout_ran`, `holdout_ok`); and a medium check that
was not required counts as vacuously passed, so it cannot block acceptance. -/
theorem C4_accept_requires_long_promotion_and_holdout (d : IterInputs) :
    (accepted d → long_ran d ∧ holdout_ran d ∧ holdout_ok d)
    ∧ (d.medium_required = false → medium_pass d) := by
  constructor
  · rintro ⟨-, -, -, -, -, hlr, hok⟩
    exact ⟨hlr, hok.1, hok⟩
  · rintro hreq ⟨-, hmr⟩
    rw [hreq] at hmr
    cases hmr

/-- The placeholder paired-stats dict `{"n": 0, "lcb": 0.0, "ucb": 0.0}`
used when paired acceptance is disabled, also a convenient filler. -/
noncomputable def dummyPair : PairedStats :=
  { n := 0, mean_diff := 0, std_diff := 0, stderr := 0, z := 0, lcb := 0, ucb := 0 }

/-- A paired-stats record with a positive lower bound for the C4 witness. -/
noncomputable def passPair : PairedStats :=
  { n := 2, mean_diff := 1, std_diff := 0, stderr := 0, z := 1, lcb := 1, ucb := 1 }

/-- A concrete iteration in which every gate passes and the medium check is
not required. -/
noncomputable def c4data : IterInputs :=
  { tune_hardfails := [], inner_delta := 2, inner_pair := passPair
    early_reject := false, paired_enabled := true, min_delta := 1
    paired_min_inner_lcb_delta := 0, paired_min_long_lcb_delta := 0
    paired_min_holdout_lcb_delta := -1, holdout_delta_req := -1/2
    holdout_hardfail_max := 1, medium_required := false
    canary_cmp_ok := true, parity_cmp_ok := true
    medium_hardfails := [], medium_holdout_hardfails := []
    medium_holdout_obj := 0, best_medium_holdout_obj := 0
    long_hardfails := [], long_obj := 10, best_obj := 5, long_pair := passPair
    holdout_hardfails := [], holdout_obj := 10, best_holdout_obj := 5
    holdout_pair := passPair }

/-- Witness for C4: a concrete accepted iteration with the medium check not
required — acceptance goes through with the vacuously passed medium gate,
and the long promotion and holdout stages ran and passed. -/
theorem C4_accept_requires_long_promotion_and_holdout_witness :
    accepted c4data ∧ c4data.medium_required = false
    ∧ (long_ran c4data ∧ holdout_ran c4data ∧ holdout_ok c4data)
    ∧ medium_pass c4data := by
  have himp : improve_ok c4data := by
    constructor
    · show ((1 : ℚ) : ℝ) ≤ 2
      norm_num
    · intro _
      show ((0 : ℚ) : ℝ) ≤ passPair.lcb
      show ((0 : ℚ) : ℝ) ≤ 1
      norm_num
  have hchk : checks_executed c4data := ⟨rfl, himp, rfl⟩
  have hmp : medium_pass c4data := by
    rintro ⟨-, hmr⟩
    cases hmr
  have hpromo : promotion_checks_reached c4data :=
    ⟨rfl, himp, ⟨hchk, rfl⟩, ⟨hchk, rfl⟩, rfl⟩
  have hlio : long_improve_ok c4data := by
    constructor
    · show ((1 : ℚ) : ℝ) ≤ (10 : ℝ) - 5
      norm_num
    · intro _
      show ((0 : ℚ) : ℝ) ≤ passPair.lcb
      show ((0 : ℚ) : ℝ) ≤ 1
      norm_num
  have hlr : long_ran c4data := ⟨hpromo, hmp⟩
  have hhr : holdout_ran c4data := ⟨hlr, rfl, hlio⟩
  have hok : holdout_ok c4data := by
    refine ⟨hhr, by norm_num [c4data], ?_, ?_⟩
    · show (5 : ℝ) + ((-1/2 : ℚ) : ℝ) ≤ 10
      norm_num
    · intro _
      show ((-1 : ℚ) : ℝ) ≤ passPair.lcb
      show ((-1 : ℚ) : ℝ) ≤ 1
      norm_num
  have hacc : accepted c4data := ⟨rfl, himp, ⟨hchk, rfl⟩, ⟨hchk, rfl⟩, hmp, hlr, hok⟩
  exact ⟨hacc, rfl,
    (C4_accept_requires_long_promotion_and_holdout c4data).1 hacc,
    (C4_accept_requires_long_promotion_and_holdout c4data).2 rfl⟩

/-! ### Stop-condition monitor (source lines 2127-2134, 2229-2258, 2324-2333) -/

/-- `gate_failed` for one iteration (lines 2127-2133): a `MISSING_METRIC`
hard fail on the tuning seeds, or an executed canary comparison that failed,
or an executed parity comparison that failed. -/
def gate_failed (d : IterInputs) : Prop :=
  "MISSING_METRIC" ∈ d.tune_hardfails
    ∨ (checks_executed d ∧ d.canary_cmp_ok = false)
    ∨ (checks_executed d ∧ d.parity_cmp_ok = false)

open Classical in
/-- `consecutive_gate_fail = (consecutive_gate_fail + 1) if gate_failed else 0`
(line 2134). -/
noncomputable def gate_fail_update (c : ℕ) (d : IterInputs) : ℕ :=
  if gate_failed d then c + 1 else 0

/-- The consecutive-failure counter after a run of iterations. -/
noncomputable def gate_fail_after (c₀ : ℕ) (ds : List IterInputs) : ℕ :=
  ds.foldl gate_fail_update c₀

theorem gate_fail_after_all_failed (c₀ : ℕ) (ds : List IterInputs)
    (h : ∀ d ∈ ds, gate_failed d) : gate_fail_after c₀ ds = c₀ + ds.length := by
  classical
  induction ds generalizing c₀ with
  | nil => rfl
  | cons d ds ih =>
    show List.foldl gate_fail_update (gate_fail_update c₀ d) ds = _
    rw [gate_fail_update, if_pos (h d (List.mem_cons_self d ds))]
    rw [show List.foldl gate_fail_update (c₀ + 1) ds = gate_fail_after (c₀ + 1) ds from rfl]
    rw [ih (c₀ + 1) (fun x hx => h x (List.mem_cons_of_mem d hx))]
    rw [List.length_cons]
    omega

/-- The loop's stop reasons (the strings written to the final report). -/
inductive StopReason where
  | manual_stop
  | convergence
  | target_realism
  | structural_change_signal
  | safety
deriving DecidableEq, Repr

/-- The loop state the end-of-iteration stop checks read. `major_left` is
the major-severity-violation scan of lines 2241-2243. -/
structure LoopState where
  stop_flag_exists : Bool
  accepted_iters : ℕ
  accepted_since_improve : ℕ
  convergence_iterations : ℤ
  best_top3 : List String
  cand_top3 : List String
  best_obj : ℝ
  target_objective : ℝ
  major_left : Prop
  plateau_same_top3 : ℕ
  plateau_iterations_structural : ℤ
  consecutive_gate_fail : ℕ

open Classical in
/-- The ordered end-of-iteration stop checks (lines 2229-2254), first match
wins; `none` means the loop continues (ending eventually as
`MAX_ITERATIONS`). -/
noncomputable def stop_decision (st : LoopState) : Option StopReason :=
  if st.stop_flag_exists then some .manual_stop
  else if st.convergence_iterations ≤ (st.accepted_iters : ℤ)
      ∧ st.convergence_iterations ≤ (st.accepted_since_improve : ℤ)
      ∧ st.best_top3 = st.cand_top3 then some .convergence
  else if st.target_objective ≤ st.best_obj ∧ ¬ st.major_left then some .target_realism
  else if st.plateau_iterations_structural ≤ (st.plateau_same_top3 : ℤ) then
    some .structural_change_signal
  else if 5 ≤ st.consecutive_gate_fail then some .safety
  else none

/-- `final["stop_condition"]` (line 2258). -/
def stop_condition_text : Option StopReason → String
  | none => "MAX_ITERATIONS"
  | some .manual_stop => "MANUAL_STOP"
  | some .convergence => "CONVERGENCE"
  | some .target_realism => "TARGET_REALISM"
  | some .structural_change_signal => "STRUCTURAL_CHANGE_SIGNAL"
  | some .safety => "SAFETY"

/-- The minimal-fix ticket file `safety_stop_minimal_fix.json` is written
exactly when the final stop condition is `SAFETY` (lines 2324-2333). -/
def safety_ticket_written (stop_condition : String) : Bool :=
  stop_condition == "SAFETY"

/-- C8: if the hard gate fails (a `MISSING_METRIC` hard fail on the tuning
seeds, or an executed canary or parity check fails) for five consecutive
iterations, and no earlier-priority stop check (manual stop, convergence,
target, structural plateau) matches — the source checks them first — then
the loop stops with `SAFETY` and writes the minimal-fix ticket file. -/
theorem C8_five_consecutive_gate_failures_safety_stop
    (c₀ : ℕ) (ds : List IterInputs) (st : LoopState)
    (h5 : 5 ≤ ds.length)
    (hall : ∀ d ∈ ds, gate_failed d)
    (hctr : st.consecutive_gate_fail = gate_fail_after c₀ ds)
    (hflag : st.stop_flag_exists = false)
    (hconv : ¬ (st.convergence_iterations ≤ (st.accepted_iters : ℤ)
      ∧ st.convergence_iterations ≤ (st.accepted_since_improve : ℤ)
      ∧ st.best_top3 = st.cand_top3))
    (htgt : ¬ (st.target_objective ≤ st.best_obj ∧ ¬ st.major_left))
    (hplat : ¬ (st.plateau_iterations_structural ≤ (st.plateau_same_top3 : ℤ))) :
    stop_decision st = some .safety
    ∧ safety_ticket_written (stop_condition_text (stop_decision st)) = true := by
  classical
  have hc : 5 ≤ st.consecutive_gate_fail := by
    rw [hctr, gate_fail_after_all_failed c₀ ds hall]
    omega
  have hs : stop_decision st = some .safety := by
    unfold stop_decision
    rw [if_neg (by rw [hflag]; exact Bool.false_ne_true), if_neg hconv, if_neg htgt,
      if_neg hplat, if_pos hc]
  refine ⟨hs, ?_⟩
  rw [hs]
  rfl

/-- A concrete failing iteration for the C8 witness: a `MISSING_METRIC`
hard fail on the tuning seeds. -/
noncomputable def c8fail : IterInputs :=
  { tune_hardfails := ["MISSING_METRIC"], inner_delta := 0, inner_pair := dummyPair
    early_reject := false, paired_enabled := true, min_delta := 1
    paired_min_inner_lcb_delta := 0, paired_min_long_lcb_delta := 0
    paired_min_holdout_lcb_delta := -1, holdout_delta_req := 0
    holdout_hardfail_max := 0, medium_required := false
    canary_cmp_ok := true, parity_cmp_ok := true
    medium_hardfails := [], medium_holdout_hardfails := []
    medium_holdout_obj := 0, best_medium_holdout_obj := 0
    long_hardfails := [], long_obj := 0, best_obj := 0, long_pair := dummyPair
    holdout_hardfails := [], holdout_obj := 0, best_holdout_obj := 0
    holdout_pair := dummyPair }

/-- The loop state after five consecutive gate failures in the C8 witness. -/
noncomputable def c8state : LoopState :=
  { stop_flag_exists := false, accepted_iters := 0, accepted_since_improve := 5
    convergence_iterations := 50, best_top3 := [], cand_top3 := ["MISSING_METRIC"]
    best_obj := 0, target_objective := 90, major_left := False
    plateau_same_top3 := 0, plateau_iterations_structural := 8
    consecutive_gate_fail := 5 }

/-- Witness for C8 at a concrete run of five `MISSING_METRIC` iterations. -/
theorem C8_five_consecutive_gate_failures_safety_stop_witness :
    (5 ≤ [c8fail, c8fail, c8fail, c8fail, c8fail].length)
    ∧ (∀ d ∈ [c8fail, c8fail, c8fail, c8fail, c8fail], gate_failed d)
    ∧ c8state.consecutive_gate_fail
        = gate_fail_after 0 [c8fail, c8fail, c8fail, c8fail, c8fail]
    ∧ (stop_decision c8state = some .safety
        ∧ safety_ticket_written (stop_condition_text (stop_decision c8state)) = true) := by
  have hall : ∀ d ∈ [c8fail, c8fail, c8fail, c8fail, c8fail], gate_failed d := by
    intro d hd
    have hone : gate_failed c8fail := Or.inl (by simp [c8fail])
    simp only [List.mem_cons, List.not_mem_nil, or_false] at hd
    rcases hd with h | h | h | h | h <;> rw [h] <;> exact hone
  have hctr : c8state.consecutive_gate_fail
      = gate_fail_after 0 [c8fail, c8fail, c8fail, c8fail, c8fail] := by
    rw [gate_fail_after_all_failed 0 _ hall]
    rfl
  refine ⟨by norm_num, hall, hctr, ?_⟩
  refine C8_five_consecutive_gate_failures_safety_stop 0 _ c8state (by norm_num) hall hctr
    rfl ?_ ?_ ?_
  · rintro ⟨habs, -⟩
    norm_num [c8state] at habs
  · rintro ⟨habs, -⟩
    norm_num [c8state] at habs
  · intro habs
    norm_num [c8state] at habs

/-! ### Telemetry reading and the seed evaluator (source lines 232-657)

`read_timeseries` stores each CSV cell either as a parsed float, as the
normalized latitude-band list (for the `pop_share_by_lat_band` column), or —
when `float()` rejects it — as the raw string.  Later numeric reads
(`float(row.get(col, 0.0))`, `int(row.get("year", 0.0))`) raise on such a
stored string, so they are embedded in `Except`. -/

/-- One CSV cell after `read_timeseries` (source lines 247-266). -/
inductive Cell where
  | num (q : ℚ)
  | str (s : String)
  | bands (xs : List ℚ)
deriving DecidableEq, Repr

/-- One timeseries row: column name to cell. -/
abbrev Row := List (String × Cell)

/-- `float(row.get(col, 0.0))`: 0 for an absent column, the parsed value for
a numeric cell; `float()` of a stored string raises `ValueError` and of the
band list raises `TypeError`. -/
def getNum (r : Row) (col : String) : Except String ℚ :=
  match r.lookup col with
  | none => .ok 0
  | some (.num q) => .ok q
  | some (.str s) => .error ("ValueError: could not convert string to float: " ++ s)
  | some (.bands _) => .error "TypeError: float() argument is a list"

/-- Python `int()` on a float truncates toward zero. -/
def pyTrunc (q : ℚ) : ℤ := if 0 ≤ q then ⌊q⌋ else ⌈q⌉

/-- `int(row.get("year", 0.0))` (source line 360); a stored string that
`float()` rejected is rejected by `int()` as well. -/
def getYear (r : Row) : Except String ℤ :=
  (getNum r "year").map pyTrunc

/-- `row.get("pop_share_by_lat_band", [])` followed by the
`isinstance(bands, list)` guard of lines 453-455: a non-list value is
replaced by the empty list. -/
def getBands (r : Row) : List ℚ :=
  match r.lookup "pop_share_by_lat_band" with
  | some (.bands xs) => xs
  | _ => []

/-- Python slice-bound resolution: negative indices wrap from the end, and
bounds clamp to the list. -/
def pySliceIdx (n : ℕ) (i : ℤ) : ℕ :=
  if i < 0 then (max 0 ((n : ℤ) + i)).toNat else min i.toNat n

/-- Python list slicing `xs[a:b]`. -/
def pySlice {α : Type} (xs : List α) (a b : ℤ) : List α :=
  let lo := pySliceIdx xs.length a
  let hi := pySliceIdx xs.length b
  (xs.drop lo).take (hi - lo)

/-- `run_summary.json` content as the evaluator reads it: the top-level key
set (availability check) and the `invariants` object when present as a dict
(its `ok` flag, defaulting to true, and `message`).  The `checkpoints` list
is only echoed into the rewritten summary and is not inspected by any
claim. -/
structure RunSummaryFile where
  keys : List String
  invariants : Option (Bool × String)
deriving DecidableEq, Repr

/-- One run output directory after parsing.  A `none` artifact is an absent
file; `timeseries` holds the `read_timeseries` rows (that reader cannot
raise: malformed numeric cells are kept as strings).  `run_meta.json` is
only checked for key presence by the evaluator (its values feed the
executor's reuse check, modelled separately). -/
structure RunDir where
  run_meta_keys : Option (List String)
  run_summary : Option RunSummaryFile
  timeseries : Option (List Row)
  violations_present : Bool

/-- `defs["shock_rate_weights"]`. -/
structure ShockRateWeights where
  a_famine : ℚ
  b_epidemic : ℚ
  c_war : ℚ

/-- The definitions document fields the evaluator reads. -/
structure Defs where
  thresholds : Thresholds
  hard_fails : List String
  anti_loophole_ids : List String
  required_timeseries_columns : List String
  required_run_meta_keys : List String
  required_run_summary_keys : List String
  shock_rate_weights : ShockRateWeights

/-- The `missing` dictionary of `check_metric_availability`. -/
structure MissingInfo where
  missing_artifacts : List String
  missing_timeseries_columns : List String
  missing_run_meta_keys : List String
  missing_run_summary_keys : List String
deriving DecidableEq, Repr

/-- Existence test for the four required artifacts. -/
def artifact_exists (d : RunDir) : String → Bool
  | "run_meta.json" => d.run_meta_keys.isSome
  | "run_summary.json" => d.run_summary.isSome
  | "timeseries.csv" => d.timeseries.isSome
  | "violations.json" => d.violations_present
  | _ => false

/-- `check_metric_availability(out_dir, defs)` (source lines 283-340):
returns `(ok, missing, violations)`; when anything required is absent the
violation list carries a synthetic maximum-severity `MISSING_METRIC` hard
fail. -/
def check_metric_availability (d : RunDir) (defs : Defs) :
    Bool × MissingInfo × List Violation :=
  let req_artifacts := ["run_meta.json", "run_summary.json", "timeseries.csv", "violations.json"]
  let missing_artifacts := req_artifacts.filter (fun a => !(artifact_exists d a))
  let missing_ts_cols :=
    match d.timeseries with
    | some rows =>
      let cols := (rows.headD []).map (·.1)
      defs.required_timeseries_columns.filter (fun c => !(cols.contains c))
    | none => defs.required_timeseries_columns
  let missing_meta_keys :=
    match d.run_meta_keys with
    | some ks => defs.required_run_meta_keys.filter (fun k => !(ks.contains k))
    | none => defs.required_run_meta_keys
  let missing_summary_keys :=
    match d.run_summary with
    | some rs => defs.required_run_summary_keys.filter (fun k => !(rs.keys.contains k))
    | none => defs.required_run_summary_keys
  let missing : MissingInfo :=
    { missing_artifacts := missing_artifacts
      missing_timeseries_columns := missing_ts_cols
      missing_run_meta_keys := missing_meta_keys
      missing_run_summary_keys := missing_summary_keys }
  let ok := missing_artifacts.isEmpty && missing_ts_cols.isEmpty
    && missing_meta_keys.isEmpty && missing_summary_keys.isEmpty
  let violations : List Violation :=
    if ok then [] else [{ id := "MISSING_METRIC", severity := 100, hardfail := true }]
  (ok, missing, violations)

/-- Abstract transcendental primitives standing for Python's `math.exp` and
`math.log` (sigmoid adequacy, latitude-band entropy) and `math.sqrt` (the
correlation denominator).  Their real-valued results are irrational and no
claim depends on their values, so the checkpoint scoring is parametrized
over them, keeping the embedding evaluable on concrete inputs. -/
structure MathPrims where
  exp : ℚ → ℚ
  log : ℚ → ℚ
  sqrt : ℚ → ℚ

/-- `corr(x, y)` (source lines 68-86): clamped Pearson correlation over the
common prefix, 0 below three points. -/
def corr (prims : MathPrims) (x y : List ℚ) : ℚ :=
  let n := min x.length y.length
  if n < 3 then 0
  else
    let xs := x.take n
    let ys := y.take n
    let mx := safe_mean xs
    let my := safe_mean ys
    let num := ((List.range n).map (fun i => (xs.getD i 0 - mx) * (ys.getD i 0 - my))).sum
    let dx2 := ((List.range n).map (fun i => (xs.getD i 0 - mx) * (xs.getD i 0 - mx))).sum
    let dy2 := ((List.range n).map (fun i => (ys.getD i 0 - my) * (ys.getD i 0 - my))).sum
    let den := prims.sqrt (max TINY (dx2 * dy2))
    max (-1) (min 1 (num / den))

/-- The per-column series `evaluate_seed_run` extracts (source lines
360-387), all of length `len(ts)`. -/
structure SeriesData where
  years : List ℤ
  pop : List ℚ
  food : List ℚ
  pop_growth : List ℚ
  trade : List ℚ
  urban : List ℚ
  tech : List ℚ
  disease_rate : List ℚ
  fam_exp : List ℚ
  migration : List ℚ
  market : List ℚ
  hab_small : List ℚ
  coastal : List ℚ
  river : List ℚ
  health_cap : List ℚ
  storage_cap : List ℚ
  logistics_cap : List ℚ
  transport_cost : List ℚ
  long_trade_proxy : List ℚ
  spoilage : List ℚ
  storage_loss : List ℚ
  avail_before : List ℚ
  extraction : List ℚ
  fam_count : List ℚ
  epi_count : List ℚ
  war_count : List ℚ

/-- The list comprehensions of source lines 360-387; each `float(...)` may
raise on a malformed (string-kept) cell, hence `Except`. -/
def extract_series (ts : List Row) : Except String SeriesData := do
  let years ← ts.mapM getYear
  let pop ← ts.mapM (fun r => getNum r "world_pop_total")
  let food ← ts.mapM (fun r => getNum r "world_food_adequacy_index")
  let pop_growth ← ts.mapM (fun r => getNum r "world_pop_growth_rate_annual")
  let trade ← ts.mapM (fun r => getNum r "world_trade_intensity")
  let urban ← ts.mapM (fun r => getNum r "world_urban_share_proxy")
  let tech ← ts.mapM (fun r => getNum r "world_tech_capability_index_median")
  let disease_rate ← ts.mapM (fun r => getNum r "world_disease_death_rate")
  let fam_exp ← ts.mapM (fun r => getNum r "famine_exposure_share_t")
  let migration ← ts.mapM (fun r => getNum r "migration_rate_t")
  let market ← ts.mapM (fun r => getNum r "market_access_median")
  let hab_small ← ts.mapM (fun r => getNum r "habitable_cell_share_pop_gt_small")
  let coastal ← ts.mapM (fun r => getNum r "pop_share_coastal_vs_inland")
  let river ← ts.mapM (fun r => getNum r "pop_share_river_proximal")
  let health_cap ← ts.mapM (fun r => getNum r "health_capability_index")
  let storage_cap ← ts.mapM (fun r => getNum r "storage_capability_index")
  let logistics_cap ← ts.mapM (fun r => getNum r "logistics_capability_index")
  let transport_cost ← ts.mapM (fun r => getNum r "transport_cost_index")
  let long_trade_proxy ← ts.mapM (fun r => getNum r "long_distance_trade_proxy")
  let spoilage ← ts.mapM (fun r => getNum r "spoilage_kcal")
  let storage_loss ← ts.mapM (fun r => getNum r "storage_loss_kcal")
  let avail_before ← ts.mapM (fun r => getNum r "available_kcal_before_losses")
  let extraction ← ts.mapM (fun r => getNum r "extraction_index")
  let fam_count ← ts.mapM (fun r => getNum r "famine_wave_count")
  let epi_count ← ts.mapM (fun r => getNum r "epidemic_wave_count")
  let war_count ← ts.mapM (fun r => getNum r "major_war_count")
  let _mig_count ← ts.mapM (fun r => getNum r "mass_migration_count")
  .ok { years := years, pop := pop, food := food, pop_growth := pop_growth
        trade := trade, urban := urban, tech := tech, disease_rate := disease_rate
        fam_exp := fam_exp, migration := migration, market := market
        hab_small := hab_small, coastal := coastal, river := river
        health_cap := health_cap, storage_cap := storage_cap
        logistics_cap := logistics_cap, transport_cost := transport_cost
        long_trade_proxy := long_trade_proxy, spoilage := spoilage
        storage_loss := storage_loss, avail_before := avail_before
        extraction := extraction
        fam_count := fam_count, epi_count := epi_count, war_count := war_count }

/-- `window_years(i)` (source lines 389-392). -/
def window_years (t : Thresholds) (years : List ℤ) (i : ℕ) : ℚ :=
  if i = 0 then max 1 ((t.depletion_monotonic_window_M : ℚ) * 25)
  else max 1 ((years.getD i 0 - years.getD (i - 1) 0 : ℤ) : ℚ)

/-- The per-checkpoint normalized event rate (the shared `wc`/`scale`
pattern of source lines 431-438), applied to one of the four count columns. -/
def event_rate (t : Thresholds) (sd : SeriesData) (counts : List ℚ) (i : ℕ) : ℚ :=
  let wc := window_years t sd.years i / 100
  let pop_avg := if i = 0 then sd.pop.getD 0 0 else (sd.pop.getD i 0 + sd.pop.getD (i - 1) 0) / 2
  let scale := max (pop_avg / t.rate_pop_base) TINY
  (counts.getD i 0 / max wc TINY) / scale

/-- The adequacy score `ad` (source lines 444-448): sigmoid of the food
adequacy gap when configured, else the clamped adequacy itself. -/
def adequacy_at (prims : MathPrims) (t : Thresholds) (food : List ℚ) (i : ℕ) : ℚ :=
  if t.use_sigmoid_adequacy then
    1 / (1 + prims.exp (-(t.sigmoid_k) * (food.getD i 0 - 1)))
  else clamp01 (food.getD i 0 / 1)

/-- The geography component (source lines 450-465). -/
def geography_at (prims : MathPrims) (t : Thresholds) (sd : SeriesData)
    (rows : List Row) (i : ℕ) : ℚ :=
  let g_settle := clamp01 (sd.hab_small.getD i 0 / t.settlement_target_share)
  let g_access := clamp01 ((sd.coastal.getD i 0 + sd.river.getD i 0) / t.access_target_sum)
  let bands := getBands (rows.getD i [])
  let ent0 := (bands.map (fun p =>
    let p := max 0 p
    if TINY < p then -p * prims.log p else 0)).sum
  let ent := if 2 ≤ bands.length then ent0 / prims.log (bands.length : ℚ) else ent0
  let g_lat := clamp01 (ent / t.lat_entropy_target)
  0.45 * g_settle + 0.35 * g_access + 0.20 * g_lat

/-- The constraint component (source lines 468-479). -/
def constraint_at (prims : MathPrims) (t : Thresholds) (w : ShockRateWeights)
    (sd : SeriesData) (i : ℕ) : ℚ :=
  let fam_r := event_rate t sd sd.fam_count i
  let epi_r := event_rate t sd sd.epi_count i
  let war_r := event_rate t sd sd.war_count i
  let shock_rate := w.a_famine * fam_r + w.b_epidemic * epi_r + w.c_war * war_r
  let c_adequacy := adequacy_at prims t sd.food i
  let c_shocks := clamp01 (shock_rate / t.shock_min_rate)
  let c_growth :=
    if sd.tech.getD i 0 < t.capability_T1 then
      closeness (sd.pop_growth.getD i 0) t.lowcap_growth_target t.lowcap_growth_tol
    else 1
  0.45 * c_adequacy + 0.25 * c_shocks + 0.30 * c_growth

/-- The coupling component (source lines 481-506).  For a nonnegative
configured lag the lagged index `i - L` lands inside the lists exactly as in
the source; the embedding totalizes reads with a zero default (the source
would raise on a negative configured lag, a configuration pathology no claim
touches). -/
def coupling_at (prims : MathPrims) (t : Thresholds) (sd : SeriesData) (i : ℕ) : ℚ :=
  if t.coupling_lag_L ≤ (i : ℤ) then
    let j := ((i : ℤ) - t.coupling_lag_L).toNat
    let d_adequacy := adequacy_at prims t sd.food i - adequacy_at prims t sd.food j
    let d_migration := sd.migration.getD i 0 - sd.migration.getD j 0
    let d_conflict := event_rate t sd sd.war_count i - event_rate t sd sd.war_count j
    let d_market := sd.market.getD i 0 - sd.market.getD j 0
    let d_fam_exp := sd.fam_exp.getD i 0 - sd.fam_exp.getD j 0
    let shock := relu (-d_adequacy)
    let k_m := if 0 < shock then
        closeness (relu d_migration / max shock TINY) t.response_ratio_target t.response_ratio_tol
      else 1
    let k_w := if 0 < shock then
        closeness (relu d_conflict / max shock TINY) t.response_ratio_target t.response_ratio_tol
      else 1
    let k_b := if 0 < d_market ∧ 0 < d_fam_exp then 0
      else if 0 < d_market then
        closeness (relu (-d_fam_exp) / max (relu d_market) TINY)
          t.response_ratio_target t.response_ratio_tol
      else 0.5
    0.40 * k_m + 0.35 * k_w + 0.25 * k_b
  else 0.5

/-- The regime-consistency component (source lines 508-521). -/
def regime_at (prims : MathPrims) (t : Thresholds) (sd : SeriesData) (i : ℕ) : ℚ :=
  let r_score :=
    if sd.tech.getD i 0 < t.capability_T1 ∧ t.corr_window_W ≤ (i : ℤ) + 1 then
      let x := pySlice sd.urban ((i : ℤ) + 1 - t.corr_window_W) ((i : ℤ) + 1)
      let y := pySlice sd.disease_rate ((i : ℤ) + 1 - t.corr_window_W) ((i : ℤ) + 1)
      closeness (corr prims x y) t.lowcap_disease_corr_target t.lowcap_disease_corr_tol
    else 0.5
  let h_score :=
    if t.health_threshold ≤ sd.health_cap.getD i 0 then
      closeness (sd.disease_rate.getD i 0) t.disease_low_target t.disease_low_tol
    else 0.5
  0.60 * r_score + 0.40 * h_score

/-- The composite checkpoint score `ck` (source lines 523-529). -/
def ck_score (prims : MathPrims) (t : Thresholds) (w : ShockRateWeights)
    (sd : SeriesData) (rows : List Row) (i : ℕ) : ℚ :=
  t.wG * geography_at prims t sd rows i
    + t.wC * constraint_at prims t w sd i
    + t.wK * coupling_at prims t sd i
    + t.wR * regime_at prims t sd i

/-- The `BROKEN_ACCOUNTING` hard fail from the simulator's own invariant
flag (source lines 394-403): fires when `run_summary.json` holds an
`invariants` dict whose `ok` (default true) is false. -/
def broken_accounting_check (rs : Option RunSummaryFile) : List Violation :=
  match rs with
  | some s =>
    match s.invariants with
    | some (ok, _msg) =>
      if ok then [] else [{ id := "BROKEN_ACCOUNTING", severity := 100, hardfail := true }]
    | none => []
  | none => []

/-- The persistent-extinction scan (source lines 405-418): track the first
index of the current below-floor run, emit one hard fail and break once the
run length in years exceeds the grace period. -/
def extinction_scan (t : Thresholds) (sd : SeriesData) : List Violation :=
  let step := fun (st : Option ℕ × Bool) (i : ℕ) =>
    if st.2 then st
    else if sd.pop.getD i 0 < t.extinction_pop_floor then
      let first := st.1.getD i
      let yrs := ((sd.years.getD i 0 - sd.years.getD first 0 : ℤ) : ℚ)
      if t.extinction_grace_years < yrs then (some first, true) else (some first, false)
    else ((none : Option ℕ), false)
  if ((List.range sd.pop.length).foldl step (none, false)).2 then
    [{ id := "EXTINCTION_PERSISTENT", severity := 100, hardfail := true }]
  else []

/-- The variance-suppression ("storage smoothing") anti-loophole check
(source lines 531-547).  The source indexes `[-1]` under guards that keep
the lists nonempty for a positive configured window; the embedding reads
last elements with a zero default. -/
def storage_smoothing_check (t : Thresholds) (sd : SeriesData) : List Violation :=
  if t.adequacy_var_window_N ≤ (sd.food.length : ℤ) then
    let win := pySlice sd.food (-t.adequacy_var_window_N) (sd.food.length : ℤ)
    let var := if 1 < win.length then pvariance win else 0
    let loss_share := (sd.spoilage.getLastD 0 + sd.storage_loss.getLastD 0)
      / max (sd.avail_before.getLastD 0) TINY
    if sd.tech.getLastD 0 < t.capability_T1 ∧ var < t.VarMin then
      if ¬ (t.storage_S1 ≤ sd.storage_cap.getLastD 0 ∧ t.loss_L1 ≤ loss_share) then
        [{ id := "STORAGE_SMOOTHING_CHEAT"
           severity := clamp01 ((t.VarMin - var) / max t.VarMin TINY) * 100
           hardfail := false }]
      else []
    else []
  else []

/-- The unsupported-long-distance-trade anti-loophole check (source lines
549-564). -/
def transport_check (t : Thresholds) (rows : List Row) (sd : SeriesData) : List Violation :=
  if rows.isEmpty then []
  else if sd.tech.getLastD 0 < t.capability_T1
      ∧ t.long_trade_share_max < sd.long_trade_proxy.getLastD 0 then
    if ¬ (t.logistics_R1 ≤ sd.logistics_cap.getLastD 0
        ∧ t.transport_C1 ≤ sd.transport_cost.getLastD 0) then
      let exc := max 0 (sd.long_trade_proxy.getLastD 0 - t.long_trade_share_max)
      [{ id := "TRANSPORT_CHEAT"
         severity := clamp01 (exc / max t.long_trade_share_max TINY) * 100
         hardfail := false }]
    else []
  else []

/-- The ignored-depletion anti-loophole check (source lines 566-582). -/
def depletion_check (t : Thresholds) (sd : SeriesData) : List Violation :=
  if t.depletion_monotonic_window_M ≤ (sd.extraction.length : ℤ)
      ∧ t.depletion_monotonic_window_M ≤ (sd.tech.length : ℤ) then
    let ex_win := pySlice sd.extraction (-t.depletion_monotonic_window_M)
      (sd.extraction.length : ℤ)
    let tech_win := pySlice sd.tech (-t.depletion_monotonic_window_M) (sd.tech.length : ℤ)
    let mono := (List.range (ex_win.length - 1)).all
      (fun i => decide (ex_win.getD i 0 ≤ ex_win.getD (i + 1) 0 + 1 / 1000000000))
    let tech_growth := tech_win.getLastD 0 - tech_win.headD 0
    if mono = true ∧ tech_growth ≤ 1 / 1000000 then
      let slope := (ex_win.getLastD 0 - ex_win.headD 0)
        / max 1 ((t.depletion_monotonic_window_M - 1 : ℤ) : ℚ)
      [{ id := "DEPLETION_IGNORED"
         severity := clamp01 (slope / max (ex_win.getLastD 0 + 1) 1) * 100
         hardfail := false }]
    else []
  else []

/-- `pmax_for(vid)` (source lines 585-590): hard-fail-class ids carry
`Pmax_major`, anti-loophole ids `Pmax_medium`, everything else `Pmax_minor`. -/
def pmax_for (t : Thresholds) (hardfail_ids anti_ids : List String) (vid : String) : ℚ :=
  if hardfail_ids.contains vid then t.Pmax_major
  else if anti_ids.contains vid then t.Pmax_medium
  else t.Pmax_minor

/-- The penalty accumulation (source lines 592-595): each violation
contributes `pmax_for(id) × clamp01(severity/100)²`. -/
def penalty_total (t : Thresholds) (hardfail_ids anti_ids : List String)
    (violations : List Violation) : ℚ :=
  (violations.map (fun v =>
    let sev := clamp01 (v.severity / 100)
    pmax_for t hardfail_ids anti_ids v.id * (sev * sev))).sum

/-- `sorted({v["id"] for v in violations if v["hardfail"]})` (line 599). -/
def hardfail_list (violations : List Violation) : List String :=
  (((violations.filter (fun v => v.hardfail)).map (fun v => v.id)).dedup).mergeSort
    (fun a b => decide (a ≤ b))

/-- `sorted(violations, key=severity, reverse=True)[:10]` (line 600). -/
def top_violations_list (violations : List Violation) : List Violation :=
  (violations.mergeSort (fun a b => decide (b.severity ≤ a.severity))).take 10

/-- The pure assembly phase of `evaluate_seed_run` (source lines 353-657
given the successfully extracted column series): violations, checkpoint
scores, penalties, summary, and the returned `SeedEval`. -/
def evaluate_core (prims : MathPrims) (seed : ℤ) (d : RunDir) (defs : Defs)
    (sd : SeriesData) : SeedEval :=
  let t := defs.thresholds
  let rows := d.timeseries.getD []
  let n := rows.length
  let availability := check_metric_availability d defs
  let violations :=
    availability.2.2
    ++ (if rows.isEmpty then [{ id := "MISSING_METRIC", severity := 100, hardfail := true }]
        else [])
    ++ broken_accounting_check d.run_summary
    ++ extinction_scan t sd
    ++ storage_smoothing_check t sd
    ++ transport_check t rows sd
    ++ depletion_check t sd
  let ck_scores := (List.range n).map (ck_score prims t defs.shock_rate_weights sd rows)
  let penalties := penalty_total t defs.hard_fails defs.anti_loophole_ids violations
  let base_score_seed := safe_mean ck_scores
  let total_score_seed := 100 * base_score_seed - penalties
  let hardfails := hardfail_list violations
  let top_viol := top_violations_list violations
  let major_war_rate := (List.range n).map (event_rate t sd sd.war_count)
  let famine_wave_rate := (List.range n).map (event_rate t sd sd.fam_count)
  let epidemic_wave_rate := (List.range n).map (event_rate t sd sd.epi_count)
  let summary : Summary :=
    { seed := seed
      base_score_seed := base_score_seed
      total_score := total_score_seed
      penalty_points := penalties
      metric_availability := availability.1
      hardfails := hardfails
      hardfail_count := hardfails.length
      top_violations := top_viol
      scalar_metrics :=
        [("world_pop_total_final", sd.pop.getLastD 0),
         ("world_food_adequacy_index_final", sd.food.getLastD 0),
         ("world_trade_intensity_final", sd.trade.getLastD 0),
         ("world_urban_share_proxy_final", sd.urban.getLastD 0),
         ("major_war_rate_final", major_war_rate.getLastD 0),
         ("famine_wave_rate_final", famine_wave_rate.getLastD 0),
         ("epidemic_wave_rate_final", epidemic_wave_rate.getLastD 0)]
      checkpoint_scores := ck_scores }
  { seed := seed
    total_score_seed := total_score_seed
    base_score_seed := base_score_seed
    penalties := penalties
    hardfails := hardfails
    violations := violations
    checkpoint_scores := ck_scores
    key_series :=
      [("world_pop_total", sd.pop),
       ("world_food_adequacy_index", sd.food),
       ("habitable_cell_share_pop_gt_small", sd.hab_small),
       ("world_trade_intensity", sd.trade),
       ("world_urban_share_proxy", sd.urban),
       ("major_war_rate", major_war_rate),
       ("famine_wave_rate", famine_wave_rate),
       ("epidemic_wave_rate", epidemic_wave_rate)]
    top_violations := top_viol
    run_summary := summary }

/-- `evaluate_seed_run(seed, out_dir, defs)` (source lines 343-657).  The
series extraction can raise on malformed (string-kept) numeric cells; the
rest is pure.  The `write_eval_artifacts` side effects rewrite the summary,
violations, and metadata files with exactly the data carried in the
returned `SeedEval` and are not modelled separately. -/
def evaluate_seed_run (prims : MathPrims) (seed : ℤ) (d : RunDir) (defs : Defs) :
    Except String SeedEval := do
  let sd ← extract_series (d.timeseries.getD [])
  .ok (evaluate_core prims seed d defs sd)

/-- C1 (amended): for every evaluated seed run (every input on which
`evaluate_seed_run` returns), the penalty total equals the sum over all
detected violations of `Pmax(class) × clamp01(severity/100)²` — the 0-100
severity is normalized before squaring — the seed's total score equals
`100×base − penalties` with base the mean of the per-checkpoint composite
scores, and, provided the configured `Pmax_major` is the largest of the
three class weights, every hard-fail-class violation id carries a weight at
least as large as any other id's. -/
theorem C1_penalty_and_total_score (prims : MathPrims) (seed : ℤ) (d : RunDir)
    (defs : Defs) (e : SeedEval)
    (h : evaluate_seed_run prims seed d defs = .ok e)
    (hmaj : defs.thresholds.Pmax_medium ≤ defs.thresholds.Pmax_major
      ∧ defs.thresholds.Pmax_minor ≤ defs.thresholds.Pmax_major) :
    e.penalties = (e.violations.map (fun v =>
        let sev := clamp01 (v.severity / 100)
        pmax_for defs.thresholds defs.hard_fails defs.anti_loophole_ids v.id
          * (sev * sev))).sum
    ∧ e.total_score_seed = 100 * e.base_score_seed - e.penalties
    ∧ e.base_score_seed = safe_mean e.checkpoint_scores
    ∧ ∀ v ∈ e.violations, defs.hard_fails.contains v.id = true →
        ∀ vid : String,
          pmax_for defs.thresholds defs.hard_fails defs.anti_loophole_ids vid
            ≤ pmax_for defs.thresholds defs.hard_fails defs.anti_loophole_ids v.id := by
  have hcore : ∀ sd, e = evaluate_core prims seed d defs sd →
      e.penalties = (e.violations.map (fun v =>
          let sev := clamp01 (v.severity / 100)
          pmax_for defs.thresholds defs.hard_fails defs.anti_loophole_ids v.id
            * (sev * sev))).sum
      ∧ e.total_score_seed = 100 * e.base_score_seed - e.penalties
      ∧ e.base_score_seed = safe_mean e.checkpoint_scores := by
    intro sd he
    subst he
    exact ⟨rfl, rfl, rfl⟩
  have hget : ∃ sd, e = evaluate_core prims seed d defs sd := by
    unfold evaluate_seed_run at h
    cases hx : extract_series (d.timeseries.getD []) with
    | error msg =>
      rw [hx] at h
      exact absurd h (by simp [Bind.bind, Except.bind])
    | ok sd =>
      rw [hx] at h
      refine ⟨sd, ?_⟩
      have : Except.ok (ε := String) (evaluate_core prims seed d defs sd) = .ok e := h
      injection this with hh
      rw [hh]
  obtain ⟨sd, he⟩ := hget
  refine ⟨(hcore sd he).1, (hcore sd he).2.1, (hcore sd he).2.2, ?_⟩
  intro v _hv hcont vid
  have hv_eq : pmax_for defs.thresholds defs.hard_fails defs.anti_loophole_ids v.id
      = defs.thresholds.Pmax_major := by
    rw [pmax_for, if_pos hcont]
  rw [hv_eq, pmax_for]
  by_cases h1 : defs.hard_fails.contains vid
  · rw [if_pos h1]
  · rw [if_neg h1]
    by_cases h2 : defs.anti_loophole_ids.contains vid
    · rw [if_pos h2]
      exact hmaj.1
    · rw [if_neg h2]
      exact hmaj.2

/-- Abstract math primitives for witnesses (their values never influence the
inputs exercised). -/
def testPrims : MathPrims := { exp := fun _ => 0, log := fun _ => 0, sqrt := fun _ => 0 }

/-- A definitions document fixture. -/
def testDefs : Defs :=
  { thresholds := testThresholds
    hard_fails := ["MISSING_METRIC", "BROKEN_ACCOUNTING", "EXTINCTION_PERSISTENT"]
    anti_loophole_ids := ["STORAGE_SMOOTHING_CHEAT", "TRANSPORT_CHEAT", "DEPLETION_IGNORED"]
    required_timeseries_columns := ["year", "world_pop_total"]
    required_run_meta_keys := ["seed", "backend"]
    required_run_summary_keys := ["total_score"]
    shock_rate_weights := { a_famine := 1, b_epidemic := 1, c_war := 1 } }

/-- A run directory with every required artifact absent. -/
def c1dir : RunDir :=
  { run_meta_keys := none, run_summary := none, timeseries := none
    violations_present := false }

/-- The extracted series of an absent/empty timeseries. -/
def emptySeries : SeriesData :=
  { years := [], pop := [], food := [], pop_growth := [], trade := [], urban := []
    tech := [], disease_rate := [], fam_exp := [], migration := [], market := []
    hab_small := [], coastal := [], river := [], health_cap := [], storage_cap := []
    logistics_cap := [], transport_cost := [], long_trade_proxy := [], spoilage := []
    storage_loss := [], avail_before := [], extraction := [], fam_count := []
    epi_count := [], war_count := [] }

/-- The evaluation of the all-missing directory. -/
def c1eval : SeedEval := evaluate_core testPrims 7 c1dir testDefs emptySeries

theorem c1run_eq : evaluate_seed_run testPrims 7 c1dir testDefs = .ok c1eval := rfl

theorem c1eval_violations :
    c1eval.violations =
      [{ id := "MISSING_METRIC", severity := 100, hardfail := true },
       { id := "MISSING_METRIC", severity := 100, hardfail := true }] := rfl

/-- The penalty formula reading the claim literally: `Pmax(class) × severity²`
with the violation's stored 0-100 severity (no normalization). -/
def claim_penalty_total (t : Thresholds) (hardfail_ids anti_ids : List String)
    (violations : List Violation) : ℚ :=
  (violations.map (fun v =>
    pmax_for t hardfail_ids anti_ids v.id * (v.severity * v.severity))).sum

/-- C1 counterexample: on a run directory with everything missing the code's
penalty total is `2 × Pmax_major × 1² = 80` (severity 100 normalized to 1),
while the claim's literal `Σ Pmax × severity²` gives
`2 × 40 × 100² = 800000`. -/
theorem C1_penalty_formula_counterexample :
    evaluate_seed_run testPrims 7 c1dir testDefs = .ok c1eval
    ∧ c1eval.penalties = 80
    ∧ claim_penalty_total testThresholds testDefs.hard_fails testDefs.anti_loophole_ids
        c1eval.violations = 800000
    ∧ (80 : ℚ) ≠ 800000 := by
  refine ⟨c1run_eq, ?_, ?_, by norm_num⟩
  · show penalty_total testThresholds testDefs.hard_fails testDefs.anti_loophole_ids
        c1eval.violations = 80
    rw [c1eval_violations]
    rw [penalty_total]
    norm_num [pmax_for, clamp01, testDefs, testThresholds]
  · rw [c1eval_violations]
    rw [claim_penalty_total]
    norm_num [pmax_for, testDefs, testThresholds]

/-- Witness for the amended C1 at the all-missing directory. -/
theorem C1_penalty_and_total_score_witness :
    (evaluate_seed_run testPrims 7 c1dir testDefs = .ok c1eval)
    ∧ (testDefs.thresholds.Pmax_medium ≤ testDefs.thresholds.Pmax_major
        ∧ testDefs.thresholds.Pmax_minor ≤ testDefs.thresholds.Pmax_major)
    ∧ (c1eval.penalties = (c1eval.violations.map (fun v =>
          let sev := clamp01 (v.severity / 100)
          pmax_for testDefs.thresholds testDefs.hard_fails testDefs.anti_loophole_ids v.id
            * (sev * sev))).sum
        ∧ c1eval.total_score_seed = 100 * c1eval.base_score_seed - c1eval.penalties
        ∧ c1eval.base_score_seed = safe_mean c1eval.checkpoint_scores
        ∧ ∀ v ∈ c1eval.violations, testDefs.hard_fails.contains v.id = true →
            ∀ vid : String,
              pmax_for testDefs.thresholds testDefs.hard_fails testDefs.anti_loophole_ids vid
                ≤ pmax_for testDefs.thresholds testDefs.hard_fails
                    testDefs.anti_loophole_ids v.id) := by
  have hmaj : testDefs.thresholds.Pmax_medium ≤ testDefs.thresholds.Pmax_major
      ∧ testDefs.thresholds.Pmax_minor ≤ testDefs.thresholds.Pmax_major := by
    constructor <;> norm_num [testDefs, testThresholds]
  exact ⟨c1run_eq, hmaj,
    C1_penalty_and_total_score testPrims 7 c1dir testDefs c1eval c1run_eq hmaj⟩

/-- A run directory missing three artifacts whose present `timeseries.csv`
holds one row with a malformed (non-numeric) `year` cell, which
`read_timeseries` keeps as the raw string. -/
def c3dir : RunDir :=
  { run_meta_keys := none, run_summary := none
    timeseries := some [[("year", Cell.str "abc")]]
    violations_present := false }

/-- C3: the availability check of this missing-artifact directory flags
`MISSING_METRIC` as the claim describes, but `evaluate_seed_run` then raises
(`int(r.get("year", 0.0))` on the string the reader kept) instead of
returning the `SeedEval`: the telemetry reader stores a malformed numeric
cell as its raw string rather than coercing it to zero as specified, so the
evaluator is not total on missing-artifact directories. -/
theorem C3_missing_artifact_eval_raises :
    (check_metric_availability c3dir testDefs).2.1.missing_artifacts
        = ["run_meta.json", "run_summary.json", "violations.json"]
    ∧ (check_metric_availability c3dir testDefs).2.2
        = [{ id := "MISSING_METRIC", severity := 100, hardfail := true }]
    ∧ evaluate_seed_run testPrims 7 c3dir testDefs
        = .error "ValueError: could not convert string to float: abc" :=
  ⟨rfl, rfl, rfl⟩

/-! ### Run executor / cache (source lines 686-1075)

`run_seed_set` processes seed requests through `run_one`: reuse an existing
working seed directory on an artifact+metadata match, else reuse a
cache-store entry on the same match, else invoke the simulator and populate
the cache.  The filesystem is modelled as explicit state (working
directories keyed by `(out_dir, seed)`, the cache store keyed by the cache
directory name), the simulator as a function from cache key to the
directory content it produces, and the thread pool as sequential processing
(workers touch distinct working directories and, within one call, distinct
keys; the cache-write-per-distinct-key discipline is what the claim is
about). -/

/-- The cache key: content hash of the configuration, seed, year range,
checkpoint interval, backend (source line 1008). -/
structure CacheKey where
  config_hash : String
  seed : ℤ
  start_year : ℤ
  end_year : ℤ
  checkpoint_every : ℤ
  use_gpu : Bool
deriving DecidableEq, Repr

/-- `run_meta.json` as `run_meta_matches` reads it, each field `none` when
the key is absent (the `meta.get` defaults).  `checkpoint_every` models an
interval record the metadata may carry; `run_meta_matches` never reads it. -/
structure RunMeta where
  seed : Option ℤ
  config_hash : Option String
  start_year : Option ℤ
  end_year : Option ℤ
  backend : Option String
  checkpoint_every : Option ℤ
deriving DecidableEq, Repr

/-- Python `str.lower()` (character-wise lowercasing). -/
def pyLower (s : String) : String := ⟨s.data.map Char.toLower⟩

/-- Python `str.strip()` (drop surrounding whitespace). -/
def pyStrip (s : String) : String :=
  ⟨((s.data.dropWhile Char.isWhitespace).reverse.dropWhile Char.isWhitespace).reverse⟩

/-- `run_meta_matches(run_dir, seed, config_hash16, start_year, end_year,
use_gpu)` (source lines 694-717); `none` covers both an absent and an
unreadable metadata file (the `try/except`).  Note the signature: the
requested checkpoint interval is not an argument. -/
def run_meta_matches (meta : Option RunMeta) (seed : ℤ) (config_hash16 : String)
    (start_year end_year : ℤ) (use_gpu : Bool) : Bool :=
  match meta with
  | none => false
  | some m =>
    let backend := pyLower (pyStrip (m.backend.getD ""))
    let expected_backend := if use_gpu then "gpu" else "cpu"
    (m.seed.getD (-1) == seed) && (m.config_hash.getD "" == config_hash16)
      && (m.start_year.getD 0 == start_year) && (m.end_year.getD 0 == end_year)
      && (backend == expected_backend)

/-- A run directory as the reuse logic sees it: whether
`run_dir_has_required_artifacts` holds (all four artifacts present and
nonempty, source lines 686-691) and its parsed metadata. -/
structure DirContent where
  artifactsOk : Bool
  meta : Option RunMeta
deriving DecidableEq, Repr

/-- The cache-store directory name
`{hash}_{seed}_{start}_{end}_{ck}_{backend}` (source line 1008). -/
def cache_dir_name (k : CacheKey) : String :=
  k.config_hash ++ "_" ++ toString k.seed ++ "_" ++ toString k.start_year ++ "_"
    ++ toString k.end_year ++ "_" ++ toString k.checkpoint_every ++ "_"
    ++ (if k.use_gpu then "gpu" else "cpu")

/-- The run-cache policy knobs read from the schema (source lines 993-996). -/
structure ExecCfg where
  cache_enabled : Bool
  reuse_existing : Bool
  materialize_from_cache : Bool

/-- The filesystem/process state: working seed directories, the cache
store, and the (ghost) log of simulator invocations. -/
structure ExecState where
  work : List ((String × ℤ) × DirContent)
  cache : List (String × DirContent)
  invoked : List CacheKey

/-- One request to the executor: the target output directory and the cache
key (configuration hash, seed, years, checkpoint interval, backend). -/
structure RunRequest where
  out_dir : String
  key : CacheKey
deriving DecidableEq, Repr

/-- The working seed directory `out_dir/seed_{seed}` of a request. -/
def work_dir_key (r : RunRequest) : String × ℤ := (r.out_dir, r.key.seed)

/-- How `run_one` satisfied a request. -/
inductive RunSource where
  | workdir_reuse
  | cache_reuse
  | invoked
deriving DecidableEq, Repr

/-- An absent directory: no artifacts, no metadata. -/
def absentDir : DirContent := { artifactsOk := false, meta := none }

/-- All five metadata components the matcher validates, plus artifact
presence — the reuse precondition. -/
def dir_matches (k : CacheKey) (dc : DirContent) : Prop :=
  dc.artifactsOk = true
    ∧ run_meta_matches dc.meta k.seed k.config_hash k.start_year k.end_year k.use_gpu = true

/-- `run_one` (source lines 1000-1035): working-directory reuse, else
cache-store reuse (optionally materialized by copy), else invoke the
simulator, write its output, and populate the cache (the `copy_run_artifacts`
into the cache is modelled as succeeding; the source swallows copy errors). -/
def run_one_step (cfg : ExecCfg) (sim : CacheKey → DirContent) (st : ExecState)
    (r : RunRequest) : ExecState × RunSource :=
  let sd := (st.work.lookup (work_dir_key r)).getD absentDir
  if cfg.reuse_existing && sd.artifactsOk
      && run_meta_matches sd.meta r.key.seed r.key.config_hash r.key.start_year
          r.key.end_year r.key.use_gpu then
    (st, .workdir_reuse)
  else
    let cname := cache_dir_name r.key
    let cd := (st.cache.lookup cname).getD absentDir
    if cfg.cache_enabled && cd.artifactsOk
        && run_meta_matches cd.meta r.key.seed r.key.config_hash r.key.start_year
            r.key.end_year r.key.use_gpu then
      (if cfg.materialize_from_cache then
        { st with work := (work_dir_key r, cd) :: st.work }
      else st, .cache_reuse)
    else
      let produced := sim r.key
      ({ work := (work_dir_key r, produced) :: st.work
         cache := if cfg.cache_enabled then (cname, produced) :: st.cache else st.cache
         invoked := st.invoked ++ [r.key] }, .invoked)

/-- Sequential processing of a request list (one process lifetime). -/
def run_requests (cfg : ExecCfg) (sim : CacheKey → DirContent) :
    ExecState → List RunRequest → ExecState
  | st, [] => st
  | st, r :: rest => run_requests cfg sim (run_one_step cfg sim st r).1 rest

/-- Zeta-expanded form of `run_one_step`, for case analysis. -/
theorem run_one_step_eq (cfg : ExecCfg) (sim : CacheKey → DirContent)
    (st : ExecState) (r : RunRequest) :
    run_one_step cfg sim st r =
      if cfg.reuse_existing && ((st.work.lookup (work_dir_key r)).getD absentDir).artifactsOk
          && run_meta_matches ((st.work.lookup (work_dir_key r)).getD absentDir).meta
              r.key.seed r.key.config_hash r.key.start_year r.key.end_year r.key.use_gpu then
        (st, .workdir_reuse)
      else if cfg.cache_enabled
          && ((st.cache.lookup (cache_dir_name r.key)).getD absentDir).artifactsOk
          && run_meta_matches ((st.cache.lookup (cache_dir_name r.key)).getD absentDir).meta
              r.key.seed r.key.config_hash r.key.start_year r.key.end_year r.key.use_gpu then
        (if cfg.materialize_from_cache then
          { st with work :=
              (work_dir_key r, (st.cache.lookup (cache_dir_name r.key)).getD absentDir)
                :: st.work }
        else st, .cache_reuse)
      else
        ({ work := (work_dir_key r, sim r.key) :: st.work
           cache := if cfg.cache_enabled then (cache_dir_name r.key, sim r.key) :: st.cache
             else st.cache
           invoked := st.invoked ++ [r.key] }, .invoked) := rfl

/-- The at-most-once invariant: `k` was invoked at most once so far, a
matching cache entry exists once it was invoked, and every invoked key
came from a request. -/
def exec_inv (k : CacheKey) (keys : List CacheKey) (st : ExecState) : Prop :=
  st.invoked.count k ≤ 1
  ∧ (k ∈ st.invoked → dir_matches k ((st.cache.lookup (cache_dir_name k)).getD absentDir))
  ∧ (∀ k₂ ∈ st.invoked, k₂ ∈ keys)

theorem exec_inv_step (cfg : ExecCfg) (sim : CacheKey → DirContent)
    (hcache : cfg.cache_enabled = true)
    (hsim : ∀ k, dir_matches k (sim k))
    (k : CacheKey) (keys : List CacheKey)
    (hinj : ∀ k₁ ∈ keys, ∀ k₂ ∈ keys, cache_dir_name k₁ = cache_dir_name k₂ → k₁ = k₂)
    (st : ExecState) (r : RunRequest) (hr : r.key ∈ keys)
    (hst : exec_inv k keys st) :
    exec_inv k keys (run_one_step cfg sim st r).1 := by
  obtain ⟨hcount, hmatch, hkeys⟩ := hst
  rw [run_one_step_eq]
  by_cases h1 : (cfg.reuse_existing
      && ((st.work.lookup (work_dir_key r)).getD absentDir).artifactsOk
      && run_meta_matches ((st.work.lookup (work_dir_key r)).getD absentDir).meta
          r.key.seed r.key.config_hash r.key.start_year r.key.end_year r.key.use_gpu) = true
  · rw [if_pos h1]
    exact ⟨hcount, hmatch, hkeys⟩
  · rw [if_neg h1]
    by_cases h2 : (cfg.cache_enabled
        && ((st.cache.lookup (cache_dir_name r.key)).getD absentDir).artifactsOk
        && run_meta_matches ((st.cache.lookup (cache_dir_name r.key)).getD absentDir).meta
            r.key.seed r.key.config_hash r.key.start_year r.key.end_year r.key.use_gpu) = true
    · rw [if_pos h2]
      by_cases h3 : cfg.materialize_from_cache = true
      · rw [if_pos h3]
        exact ⟨hcount, hmatch, hkeys⟩
      · rw [if_neg h3]
        exact ⟨hcount, hmatch, hkeys⟩
    · rw [if_neg h2]
      have hnotin : r.key = k → k ∉ st.invoked := by
        rintro rfl hk
        obtain ⟨ha, hm⟩ := hmatch hk
        exact h2 (by rw [hcache, ha, hm]; rfl)
      refine ⟨?_, ?_, ?_⟩
      · show (st.invoked ++ [r.key]).count k ≤ 1
        rw [List.count_append]
        by_cases he : r.key = k
        · have h0 : st.invoked.count k = 0 := List.count_eq_zero.mpr (hnotin he)
          rw [h0, he, List.count_singleton]
          simp
        · have h0 : List.count k [r.key] = 0 :=
            List.count_eq_zero.mpr (by simp; exact fun h => he h.symm)
          rw [h0]
          omega
      · intro hk
        show dir_matches k
          (((if cfg.cache_enabled then (cache_dir_name r.key, sim r.key) :: st.cache
              else st.cache).lookup (cache_dir_name k)).getD absentDir)
        rw [if_pos hcache]
        by_cases he : r.key = k
        · subst he
          rw [List.lookup_cons_self]
          exact hsim r.key
        · have hne : cache_dir_name k ≠ cache_dir_name r.key := by
            intro hcn
            rcases List.mem_append.mp hk with hk | hk
            · exact he (hinj r.key hr k (hkeys k hk) hcn.symm)
            · simp at hk
              exact he hk.symm
          rw [List.lookup_cons]
          have hbeq : (cache_dir_name k == cache_dir_name r.key) = false :=
            beq_eq_false_iff_ne.mpr hne
          rw [hbeq]
          rcases List.mem_append.mp hk with hk | hk
          · exact hmatch hk
          · simp at hk
            exact absurd hk.symm he
      · intro k₂ hk₂
        rcases List.mem_append.mp hk₂ with hk₂ | hk₂
        · exact hkeys k₂ hk₂
        · simp at hk₂
          rw [hk₂]
          exact hr

theorem exec_inv_run (cfg : ExecCfg) (sim : CacheKey → DirContent)
    (hcache : cfg.cache_enabled = true)
    (hsim : ∀ k, dir_matches k (sim k))
    (k : CacheKey) (keys : List CacheKey)
    (hinj : ∀ k₁ ∈ keys, ∀ k₂ ∈ keys, cache_dir_name k₁ = cache_dir_name k₂ → k₁ = k₂)
    (reqs : List RunRequest) (st : ExecState)
    (hreq : ∀ r ∈ reqs, r.key ∈ keys)
    (hst : exec_inv k keys st) :
    exec_inv k keys (run_requests cfg sim st reqs) := by
  induction reqs generalizing st with
  | nil => exact hst
  | cons r rest ih =>
    exact ih (run_one_step cfg sim st r).1
      (fun x hx => hreq x (List.mem_cons_of_mem r hx))
      (exec_inv_step cfg sim hcache hsim k keys hinj st r
        (hreq r (List.mem_cons_self r rest)) hst)

/-- C6 (amended): with caching enabled and a simulator recording metadata
that matches its invocation, the executor invokes the simulator at most once
per distinct cache key within one process lifetime (for request sets whose
cache directory names are injective over keys, as the fixed-width hex hash
prefix guarantees in the source); and it reuses a prior run — an existing
working seed directory or a cache-store entry — only when the directory has
all required artifacts and its recorded metadata matches the request's
seed, configuration content hash, start year, end year, and backend.  The
requested checkpoint interval selects the cache-store path but is not
validated against the recorded metadata. -/
theorem C6_cache_at_most_once_and_reuse_validation
    (cfg : ExecCfg) (sim : CacheKey → DirContent)
    (hcache : cfg.cache_enabled = true)
    (hsim : ∀ k, dir_matches k (sim k))
    (reqs : List RunRequest) (st₀ : ExecState) (hstart : st₀.invoked = [])
    (hinj : ∀ r₁ ∈ reqs, ∀ r₂ ∈ reqs,
      cache_dir_name r₁.key = cache_dir_name r₂.key → r₁.key = r₂.key)
    (k : CacheKey) :
    (run_requests cfg sim st₀ reqs).invoked.count k ≤ 1
    ∧ (∀ st r, (run_one_step cfg sim st r).2 = .workdir_reuse →
        dir_matches r.key ((st.work.lookup (work_dir_key r)).getD absentDir))
    ∧ (∀ st r, (run_one_step cfg sim st r).2 = .cache_reuse →
        dir_matches r.key ((st.cache.lookup (cache_dir_name r.key)).getD absentDir))
    ∧ (∀ (m : RunMeta) (seed : ℤ) (hash : String) (sy ey : ℤ) (gpu : Bool),
        run_meta_matches (some m) seed hash sy ey gpu = true ↔
          (m.seed.getD (-1) = seed ∧ m.config_hash.getD "" = hash
            ∧ m.start_year.getD 0 = sy ∧ m.end_year.getD 0 = ey
            ∧ pyLower (pyStrip (m.backend.getD "")) = (if gpu then "gpu" else "cpu"))) := by
  refine ⟨?_, ?_, ?_, ?_⟩
  · have hinj' : ∀ k₁ ∈ reqs.map (·.key), ∀ k₂ ∈ reqs.map (·.key),
        cache_dir_name k₁ = cache_dir_name k₂ → k₁ = k₂ := by
      intro k₁ h₁ k₂ h₂ hcn
      obtain ⟨r₁, hr₁, he₁⟩ := List.mem_map.mp h₁
      obtain ⟨r₂, hr₂, he₂⟩ := List.mem_map.mp h₂
      rw [← he₁, ← he₂] at hcn ⊢
      exact hinj r₁ hr₁ r₂ hr₂ hcn
    have hst : exec_inv k (reqs.map (·.key)) st₀ := by
      refine ⟨?_, ?_, ?_⟩
      · rw [hstart]
        simp
      · intro hk
        rw [hstart] at hk
        cases hk
      · intro k₂ hk₂
        rw [hstart] at hk₂
        cases hk₂
    exact (exec_inv_run cfg sim hcache hsim k (reqs.map (·.key)) hinj' reqs st₀
      (fun r hr => List.mem_map.mpr ⟨r, hr, rfl⟩) hst).1
  · intro st r h
    rw [run_one_step_eq] at h
    by_cases h1 : (cfg.reuse_existing
        && ((st.work.lookup (work_dir_key r)).getD absentDir).artifactsOk
        && run_meta_matches ((st.work.lookup (work_dir_key r)).getD absentDir).meta
            r.key.seed r.key.config_hash r.key.start_year r.key.end_year r.key.use_gpu) = true
    · simp only [Bool.and_eq_true] at h1
      exact ⟨h1.1.2, h1.2⟩
    · rw [if_neg h1] at h
      by_cases h2 : (cfg.cache_enabled
          && ((st.cache.lookup (cache_dir_name r.key)).getD absentDir).artifactsOk
          && run_meta_matches ((st.cache.lookup (cache_dir_name r.key)).getD absentDir).meta
              r.key.seed r.key.config_hash r.key.start_year r.key.end_year r.key.use_gpu) = true
      · rw [if_pos h2] at h
        cases h
      · rw [if_neg h2] at h
        cases h
  · intro st r h
    rw [run_one_step_eq] at h
    by_cases h1 : (cfg.reuse_existing
        && ((st.work.lookup (work_dir_key r)).getD absentDir).artifactsOk
        && run_meta_matches ((st.work.lookup (work_dir_key r)).getD absentDir).meta
            r.key.seed r.key.config_hash r.key.start_year r.key.end_year r.key.use_gpu) = true
    · rw [if_pos h1] at h
      cases h
    · rw [if_neg h1] at h
      by_cases h2 : (cfg.cache_enabled
          && ((st.cache.lookup (cache_dir_name r.key)).getD absentDir).artifactsOk
          && run_meta_matches ((st.cache.lookup (cache_dir_name r.key)).getD absentDir).meta
              r.key.seed r.key.config_hash r.key.start_year r.key.end_year r.key.use_gpu) = true
      · simp only [Bool.and_eq_true] at h2
        exact ⟨h2.1.2, h2.2⟩
      · rw [if_neg h2] at h
        cases h
  · intro m seed hash sy ey gpu
    show ((m.seed.getD (-1) == seed) && (m.config_hash.getD "" == hash)
        && (m.start_year.getD 0 == sy) && (m.end_year.getD 0 == ey)
        && (pyLower (pyStrip (m.backend.getD "")) == (if gpu then "gpu" else "cpu"))) = true
      ↔ _
    simp only [Bool.and_eq_true, beq_iff_eq]
    tauto

/-- Metadata recorded by a prior run executed with checkpoint interval 50. -/
def c6meta : RunMeta :=
  { seed := some 1, config_hash := some "h", start_year := some 0, end_year := some 10
    backend := some "cpu", checkpoint_every := some 50 }

/-- The prior run's working seed directory content. -/
def c6dir : DirContent := { artifactsOk := true, meta := some c6meta }

/-- Executor policy with caching and working-directory reuse enabled. -/
def c6cfg : ExecCfg :=
  { cache_enabled := true, reuse_existing := true, materialize_from_cache := false }

/-- A request identical to the prior run except for checkpoint interval 25. -/
def c6key : CacheKey :=
  { config_hash := "h", seed := 1, start_year := 0, end_year := 10
    checkpoint_every := 25, use_gpu := false }

/-- The same key with the interval the prior run actually used. -/
def c6keyA : CacheKey :=
  { config_hash := "h", seed := 1, start_year := 0, end_year := 10
    checkpoint_every := 50, use_gpu := false }

/-- A simulator model recording metadata that matches its invocation
(including the interval it was invoked with). -/
def c6sim : CacheKey → DirContent := fun k =>
  { artifactsOk := true
    meta := some { seed := some k.seed, config_hash := some k.config_hash
                   start_year := some k.start_year, end_year := some k.end_year
                   backend := some (if k.use_gpu then "gpu" else "cpu")
                   checkpoint_every := some k.checkpoint_every } }

theorem c6sim_matches (k : CacheKey) : dir_matches k (c6sim k) := by
  refine ⟨rfl, ?_⟩
  have hb : ∀ b : Bool,
      (pyLower (pyStrip (if b then "gpu" else "cpu")) == (if b then "gpu" else "cpu")) = true := by
    intro b
    cases b
    · decide
    · decide
  show ((k.seed == k.seed) && (k.config_hash == k.config_hash)
      && (k.start_year == k.start_year) && (k.end_year == k.end_year)
      && (pyLower (pyStrip (if k.use_gpu then "gpu" else "cpu"))
            == (if k.use_gpu then "gpu" else "cpu"))) = true
  rw [hb k.use_gpu]
  simp

/-- C6 counterexample: a working seed directory whose run was recorded with
checkpoint interval 50 is reused, without invoking the simulator, for a
request whose cache key carries checkpoint interval 25 — the reuse check
validates seed, configuration hash, years and backend, but not the
checkpoint interval. -/
theorem C6_checkpoint_interval_not_validated_counterexample :
    c6meta.checkpoint_every = some 50
    ∧ c6key.checkpoint_every = 25
    ∧ (run_one_step c6cfg c6sim
        { work := [(("out", 1), c6dir)], cache := [], invoked := [] }
        { out_dir := "out", key := c6key }).2 = .workdir_reuse
    ∧ ((run_one_step c6cfg c6sim
        { work := [(("out", 1), c6dir)], cache := [], invoked := [] }
        { out_dir := "out", key := c6key }).1).invoked = [] := by
  refine ⟨rfl, rfl, ?_, ?_⟩ <;> decide

/-- Two requests for the same cache key in different output directories. -/
def c6reqs : List RunRequest :=
  [{ out_dir := "a", key := c6keyA }, { out_dir := "b", key := c6keyA }]

/-- The empty initial executor state. -/
def c6start : ExecState := { work := [], cache := [], invoked := [] }

/-- Witness for the amended C6: processing the same cache key twice from an
empty state invokes the simulator at most once (indeed exactly once — the
second request is served from the cache store). -/
theorem C6_cache_at_most_once_witness :
    c6cfg.cache_enabled = true
    ∧ (∀ k, dir_matches k (c6sim k))
    ∧ c6start.invoked = []
    ∧ (∀ r₁ ∈ c6reqs, ∀ r₂ ∈ c6reqs,
        cache_dir_name r₁.key = cache_dir_name r₂.key → r₁.key = r₂.key)
    ∧ (run_requests c6cfg c6sim c6start c6reqs).invoked.count c6keyA ≤ 1
    ∧ (run_requests c6cfg c6sim c6start c6reqs).invoked = [c6keyA] := by
  have hinj : ∀ r₁ ∈ c6reqs, ∀ r₂ ∈ c6reqs,
      cache_dir_name r₁.key = cache_dir_name r₂.key → r₁.key = r₂.key := by
    intro r₁ h₁ r₂ h₂ _
    have e₁ : r₁.key = c6keyA := by
      simp only [c6reqs, List.mem_cons, List.not_mem_nil, or_false] at h₁
      rcases h₁ with h | h <;> rw [h]
    have e₂ : r₂.key = c6keyA := by
      simp only [c6reqs, List.mem_cons, List.not_mem_nil, or_false] at h₂
      rcases h₂ with h | h <;> rw [h]
    rw [e₁, e₂]
  refine ⟨rfl, c6sim_matches, rfl, hinj, ?_, ?_⟩
  · exact (C6_cache_at_most_once_and_reuse_validation c6cfg c6sim rfl c6sim_matches
      c6reqs c6start rfl hinj c6keyA).1
  · decide

end FineTune
